import Mathlib

/-!
# XDP plugin loading and callback dispatch (`core/common/xdp/profile.cpp`)

A shallow embedding of the plugin loading layer of `profile.cpp`: the per-plugin
namespaces (`register_callbacks`, `load`, `update_device`, `end_*`), the helper
`load_once_and_update`, and the two entry points `xrt_core::xdp::update_device`
("activate") and `xrt_core::xdp::finish_flush_device` ("finalize").

* The preprocessor selection (`XDP_CLIENT_BUILD`, `XDP_VE2_BUILD`, `_WIN32`) is a value
  of type `Build`.
* The global `std::function` slots and the function-local `static` loaders of a plugin
  namespace are the fields of a `Plugin`; `State` holds one `Plugin` per namespace and
  the flag of the static loader of `load_core`.
* The collaborators that are not part of this file (configuration reader, dynamic
  loader, plugin entry points) are the fields of `Env`; an `Env` describes how they
  behave during one call of an entry point and may differ from call to call.
* C++ exceptions are explicit: every operation returns an `Outcome` holding the state
  it leaves behind, the observable events it produced, and the `what()` of the
  `std::exception` that escaped it, if any. Every exception is taken to derive from
  `std::exception`, the type the `catch` clauses of the file name.
* The events are ghost instrumentation: load requests, symbol resolutions, calls of
  plugin callbacks and debug messages, in the order they happen. A message is kept as
  the fixed text of the call site and the `what()` appended to it.
-/

namespace xrt_core.xdp

/-- The build the file is compiled for: `XDP_CLIENT_BUILD` (with or without `_WIN32`),
`XDP_VE2_BUILD`, or neither of the two. -/
inductive Build where
  | client (win32 : Bool)
  | ve2
  | generic
  deriving DecidableEq, Repr

/-- The plugin namespaces of the file. -/
inductive Module where
  | ml_timeline
  | aie_halt
  | aie_profile
  | aie_trace
  | aie_debug
  | aie_pc
  | aie_status
  | pl_deadlock
  deriving DecidableEq, Repr

/-- The two callback variables of a plugin namespace: `update_device_cb` and the one
for the end or flush (`end_poll_cb`, `end_debug_cb`, `end_status_cb`, `end_trace_cb`,
`finish_flush_device_cb`). -/
inductive Slot where
  | update
  | flush
  deriving DecidableEq, Repr

/-- Observable actions, in the order they happen. -/
inductive Event where
  /-- a `module_loader` is being constructed for the named library -/
  | load_request (name : String)
  /-- `xrt_core::dlsym(handle, symbol)` -/
  | dlsym (handle : Nat) (symbol : String)
  /-- the callable `fn` stored in slot `slot` of namespace `m` is called with the
  device handle and, for the two-argument callbacks, the hardware context flag -/
  | callback (m : Module) (slot : Slot) (fn : Nat) (handle : Nat) (hw_context_flow : Option Bool)
  /-- `xrt_core::message::send(severity_level::debug, "XRT", head ++ what)` -/
  | message (head : String) (what : String)
  deriving DecidableEq, Repr

/-- Result of a call that may throw: a value or the `what()` of the exception. -/
inductive Thrown (α : Type) where
  | value (a : α)
  | raise (what : String)
  deriving DecidableEq, Repr

/-- Behaviour of the collaborators during one call of an entry point. -/
structure Env where
  /-- the boolean getter of `xrt_core::config` for a plugin (`get_ml_timeline`,
  `get_aie_halt`, `get_aie_profile`, `get_aie_trace`, `get_aie_debug`, `get_aie_pc`,
  `get_aie_status`, `get_pl_deadlock_detection`) -/
  config : Module → Thrown Bool
  /-- `xrt_core::config::get_xdp_mode()` -/
  get_xdp_mode : Thrown String
  /-- whether `std::getenv("XCL_EMULATION_MODE")` is non-null -/
  emulation_mode_set : Bool
  /-- locating and opening the named library: the library handle, or the exception -/
  load_library : String → Thrown Nat
  /-- `xrt_core::dlsym`: the address of the symbol, `none` for a null pointer -/
  dlsym : Nat → String → Option Nat
  /-- calling a resolved plugin entry point with its arguments: `none` when it returns,
  `some what` when it throws -/
  invoke : Nat → Nat → Option Bool → Option String

/-- The globals of one plugin namespace. -/
structure Plugin where
  /-- whether the initialisation of the static loader in `load()` has completed -/
  loader : Bool
  /-- the same for the static loader in `load_xdna()`, which only the namespaces
  `aie::profile` and `aie::trace` have -/
  loader_xdna : Bool
  /-- the variable `update_device_cb` (`none` is an empty `std::function`) -/
  update_device_cb : Option Nat
  /-- the end/flush callback variable -/
  end_cb : Option Nat
  deriving DecidableEq, Repr

/-- The mutable globals of the file. -/
structure State where
  /-- whether the initialisation of the static loader in `load_core()` has completed -/
  core_loader : Bool
  /-- the globals of every plugin namespace -/
  plugin : Module → Plugin

/-- Globals of a namespace at process start. -/
def Plugin.initial : Plugin := ⟨false, false, none, none⟩

/-- The state at process start: no static initialised, every `std::function` empty. -/
def State.initial : State := ⟨false, fun _ => Plugin.initial⟩

/-- What a call leaves behind: the globals it worked on, the events it produced, and
the `what()` of the exception that escaped it, if any. -/
structure Outcome (σ : Type) where
  state : σ
  events : List Event
  raised : Option String

/-- Normal return without any event. -/
def Outcome.ret {σ : Type} (s : σ) : Outcome σ := ⟨s, [], none⟩

/-- Sequential composition: the continuation runs when nothing was thrown. -/
def Outcome.andThen {σ : Type} (o : Outcome σ) (k : σ → Outcome σ) : Outcome σ :=
  match o.raised with
  | some what => ⟨o.state, o.events, some what⟩
  | none => ⟨(k o.state).state, o.events ++ (k o.state).events, (k o.state).raised⟩

/-- Name of the library the static loader in `load()` of each namespace is constructed
with. -/
def libname : Module → String
  | .aie_profile => "xdp_aie_profile_plugin"
  | .aie_debug => "xdp_aie_debug_plugin"
  | .aie_status => "xdp_aie_status_plugin"
  | .ml_timeline => "xdp_ml_timeline_plugin"
  | .aie_pc => "xdp_aie_pc_plugin"
  | .pl_deadlock => "xdp_pl_deadlock_plugin"
  | .aie_trace => "xdp_aie_trace_plugin"
  | .aie_halt => "xdp_aie_halt_plugin"

/-- Symbol each namespace resolves for its `update_device_cb`. -/
def update_symbol : Module → String
  | .aie_profile => "updateAIECtrDevice"
  | .aie_debug => "updateAIEDebugDevice"
  | .aie_status => "updateAIEStatusDevice"
  | .ml_timeline => "updateDeviceMLTmln"
  | .aie_pc => "updateDeviceAIEPC"
  | .pl_deadlock => "updateDevicePLDeadlock"
  | .aie_trace => "updateAIEDevice"
  | .aie_halt => "updateDeviceAIEHalt"

/-- Symbol each namespace resolves for its end/flush callback. -/
def end_symbol : Module → String
  | .aie_profile => "endAIECtrPoll"
  | .aie_debug => "endAIEDebugRead"
  | .aie_status => "endAIEStatusPoll"
  | .ml_timeline => "finishflushDeviceMLTmln"
  | .aie_pc => "finishflushDeviceAIEPC"
  | .pl_deadlock => "flushDevicePLDeadlock"
  | .aie_trace => "finishFlushAIEDevice"
  | .aie_halt => "finishFlushDeviceAIEHalt"

/-- The assignments `register_callbacks` of each namespace performs, in source order,
under the preprocessor guards of the build (an empty list where the body is
`(void)handle;`). -/
def registered_slots : Build → Module → List Slot
  | _, .aie_profile => [.update, .flush]
  | .client _, .aie_debug => [.flush, .update]
  | .ve2, .aie_debug => [.flush, .update]
  | .generic, .aie_debug => []
  | .ve2, .aie_status => [.update, .flush]
  | _, .aie_status => []
  | .client _, .ml_timeline => [.update, .flush]
  | .ve2, .ml_timeline => [.update, .flush]
  | .generic, .ml_timeline => []
  | .client _, .aie_pc => [.update, .flush]
  | _, .aie_pc => []
  | .client _, .pl_deadlock => []
  | _, .pl_deadlock => [.update, .flush]
  | _, .aie_trace => [.flush, .update]
  | .client _, .aie_halt => [.update, .flush]
  | .ve2, .aie_halt => [.update, .flush]
  | .generic, .aie_halt => []

/-- Symbol name resolved for a slot of a namespace. -/
def symbol (m : Module) : Slot → String
  | .update => update_symbol m
  | .flush => end_symbol m

/-- One assignment `<slot>_cb = reinterpret_cast<...>(xrt_core::dlsym(handle, symbol))`. -/
def assign_slot (env : Env) (m : Module) (handle : Nat) (k : Slot) (p : Plugin) : Plugin :=
  match k with
  | .update => { p with update_device_cb := env.dlsym handle (update_symbol m) }
  | .flush => { p with end_cb := env.dlsym handle (end_symbol m) }

/-- Runs the assignments of `register_callbacks` one after the other. -/
def register_slots (env : Env) (m : Module) (handle : Nat) : List Slot → Plugin → Outcome Plugin
  | [], p => Outcome.ret p
  | k :: ks, p =>
    let o := register_slots env m handle ks (assign_slot env m handle k p)
    ⟨o.state, Event.dlsym handle (symbol m k) :: o.events, o.raised⟩

/-- The `register_callbacks(void* handle)` function of each plugin namespace. -/
def register_callbacks (b : Build) (env : Env) (m : Module) (handle : Nat) (p : Plugin) :
    Outcome Plugin :=
  register_slots env m handle (registered_slots b m) p

/-- The function `register_callbacks_empty(void*)` of the anonymous namespace. -/
def register_callbacks_empty {σ : Type} (_handle : Nat) (s : σ) : Outcome σ := Outcome.ret s

/-- Modelled from the spec: the constructor of `xrt_core::module_loader`
(`core/common/module_loader.h` is not part of the sources). It makes the named library
resident, which may throw, and then hands the library handle to the registration
function; the warning function passed everywhere in this file is empty. -/
def module_loader {σ : Type} (env : Env) (name : String)
    (register_function : Nat → σ → Outcome σ) (s : σ) : Outcome σ :=
  match env.load_library name with
  | .raise what => ⟨s, [Event.load_request name], some what⟩
  | .value handle =>
    ⟨(register_function handle s).state,
      Event.load_request name :: (register_function handle s).events,
      (register_function handle s).raised⟩

/-- A function-local `static` object, with `done` reading and `mark` setting its
initialisation flag: it is constructed the first time control passes through its
declaration, and when the constructor throws the initialisation is not complete and is
tried again the next time. -/
def static_local {σ : Type} (done : σ → Bool) (mark : σ → σ) (ctor : σ → Outcome σ) (s : σ) :
    Outcome σ :=
  if done s then Outcome.ret s
  else
    match (ctor s).raised with
    | some what => ⟨(ctor s).state, (ctor s).events, some what⟩
    | none => ⟨mark (ctor s).state, (ctor s).events, none⟩

namespace core

/-- The function `xrt_core::xdp::core::load_core`. -/
def load_core (env : Env) (s : State) : Outcome State :=
  static_local State.core_loader (fun s => { s with core_loader := true })
    (module_loader env "xdp_core" register_callbacks_empty) s

end core

/-- The `load()` function of each plugin namespace. -/
def load (b : Build) (env : Env) (m : Module) (p : Plugin) : Outcome Plugin :=
  static_local Plugin.loader (fun p => { p with loader := true })
    (module_loader env (libname m) (register_callbacks b env m)) p

namespace aie.profile

/-- The function `xrt_core::xdp::aie::profile::load_xdna`. -/
def load_xdna (b : Build) (env : Env) (p : Plugin) : Outcome Plugin :=
  static_local Plugin.loader_xdna (fun p => { p with loader_xdna := true })
    (module_loader env "xdp_aie_profile_plugin_xdna" (register_callbacks b env .aie_profile)) p

end aie.profile

namespace aie.trace

/-- The function `xrt_core::xdp::aie::trace::load_xdna`. -/
def load_xdna (b : Build) (env : Env) (p : Plugin) : Outcome Plugin :=
  static_local Plugin.loader_xdna (fun p => { p with loader_xdna := true })
    (module_loader env "xdp_aie_trace_plugin_xdna" (register_callbacks b env .aie_trace)) p

end aie.trace

/-- Whether `update_device_cb` of the namespace takes `(void*, bool)`. -/
def takes_flag : Module → Bool
  | .aie_profile => true
  | .aie_status => true
  | .aie_trace => true
  | _ => false

/-- Calls a stored callable; the event is recorded before the callee runs. -/
def call_cb (env : Env) (m : Module) (k : Slot) (fn handle : Nat) (flag : Option Bool)
    (p : Plugin) : Outcome Plugin :=
  ⟨p, [Event.callback m k fn handle flag], env.invoke fn handle flag⟩

/-- The `update_device` function of each plugin namespace:
`if (update_device_cb) update_device_cb(handle[, hw_context_flow]);`. -/
def plugin_update_device (env : Env) (m : Module) (handle : Nat) (hw_context_flow : Bool)
    (p : Plugin) : Outcome Plugin :=
  match p.update_device_cb with
  | none => Outcome.ret p
  | some fn =>
    call_cb env m .update fn handle (if takes_flag m then some hw_context_flow else none) p

/-- The end/flush function of each plugin namespace (`end_poll`, `end_debug`,
`end_status`, `end_trace`, `finish_flush_device`): `if (cb) cb(handle);`. -/
def plugin_finish_flush_device (env : Env) (m : Module) (handle : Nat) (p : Plugin) :
    Outcome Plugin :=
  match p.end_cb with
  | none => Outcome.ret p
  | some fn => call_cb env m .flush fn handle none p

/-- The `try { f(); } catch (const std::exception &e) { send(debug, "XRT", msg + e.what()); }`
blocks of the file. -/
def try_catch {σ : Type} (o : Outcome σ) (fail_msg : String) : Outcome σ :=
  match o.raised with
  | some what => ⟨o.state, o.events ++ [Event.message fail_msg what], none⟩
  | none => o

/-- The template `load_once_and_update` of the anonymous namespace. The update arguments
are already bound in `update_function`. -/
def load_once_and_update {σ : Type} (ini_check : Thrown Bool) (load_function : σ → Outcome σ)
    (update_function : σ → Outcome σ) (load_fail_msg update_fail_msg : String)
    (s : σ) : Outcome σ :=
  match ini_check with
  | .raise what => ⟨s, [], some what⟩
  | .value false => Outcome.ret s
  | .value true =>
    (try_catch (load_function s) load_fail_msg).andThen fun s1 =>
      try_catch (update_function s1) update_fail_msg

/-- The enablement check passed to `load_once_and_update` and repeated in
`finish_flush_device`: the configuration getter of the plugin, and for PL deadlock
detection `get_pl_deadlock_detection() && nullptr == std::getenv("XCL_EMULATION_MODE")`. -/
def ini_check (env : Env) : Module → Thrown Bool
  | .pl_deadlock =>
    match env.config .pl_deadlock with
    | .raise what => .raise what
    | .value false => .value false
    | .value true => .value (!env.emulation_mode_set)
  | m => env.config m

/-- The `load_fail_msg` argument of each call of `load_once_and_update`. -/
def load_fail_msg : Module → String
  | .ml_timeline => "Failed to load ML Timeline library. Caught exception "
  | .aie_halt => "Failed to load AIE Halt library. Caught exception "
  | .aie_profile => "Failed to load AIE Profile library. Caught exception "
  | .aie_trace => "Failed to load AIE Trace library. Caught exception "
  | .aie_debug => "Failed to load AIE Debug library. Caught exception "
  | .aie_pc => "Failed to load AIE PC library. Caught exception "
  | .aie_status => "Failed to load AIE Status library. Caught exception "
  | .pl_deadlock => "Failed to load PL Deadlock Detection library. Caught exception "

/-- The `update_fail_msg` argument of each call of `load_once_and_update`. -/
def update_fail_msg : Module → String
  | .ml_timeline => "Failed to setup for ML Timeline. Caught exception "
  | .aie_halt => "Failed to setup for AIE Halt. Caught exception "
  | .aie_profile => "Failed to setup for AIE Profile. Caught exception "
  | .aie_trace => "Failed to setup for AIE Trace. Caught exception "
  | .aie_debug => "Failed to setup for AIE Debug. Caught exception "
  | .aie_pc => "Failed to setup for AIE PC. Caught exception "
  | .aie_status => "Failed to setup for AIE Status. Caught exception "
  | .pl_deadlock => "Failed to setup for PL Deadlock Detection library. Caught exception "

/-- Message sent by the VE2 load lambdas when `get_xdp_mode() == "xdna"`. -/
def xdna_mode_msg : Module → String
  | .aie_trace =>
    "xdp_mode config is set to XDNA. Hence, AIE Event Trace will be available only for XDNA device."
  | _ => "xdp_mode config is set to XDNA. Hence, profiling will be available only for XDNA device."

/-- Message sent by the VE2 load lambdas otherwise. -/
def zocl_mode_msg : Module → String
  | .aie_trace =>
    "xdp_mode config is set to ZOCL. Hence, AIE Event Trace will be available only for ZOCL device."
  | _ => "xdp_mode config is set to ZOCL. Hence, profiling will be available only for ZOCL device."

/-- Message sent when `load_core` throws. -/
def core_fail_msg : String := "Failed to load XDP Core library. Caught exception "

/-- Sends one debug message. -/
def send {σ : Type} (head : String) (s : σ) : Outcome σ := ⟨s, [Event.message head ""], none⟩

/-- The load lambdas of the VE2 build for AIE trace and AIE profile: the mode string
selects between `load_xdna()` and `load()`, after a message naming the choice. -/
def load_by_mode (env : Env) (m : Module) (load_xdna load : Plugin → Outcome Plugin)
    (p : Plugin) : Outcome Plugin :=
  match env.get_xdp_mode with
  | .raise what => ⟨p, [], some what⟩
  | .value mode =>
    if mode = "xdna" then (send (xdna_mode_msg m) p).andThen load_xdna
    else (send (zocl_mode_msg m) p).andThen load

/-- The `load_function` argument of the call of `load_once_and_update` for a plugin. -/
def load_function (b : Build) (env : Env) : Module → Plugin → Outcome Plugin
  | .aie_trace =>
    match b with
    | .ve2 => load_by_mode env .aie_trace (aie.trace.load_xdna b env) (load b env .aie_trace)
    | _ => load b env .aie_trace
  | .aie_profile =>
    match b with
    | .ve2 => load_by_mode env .aie_profile (aie.profile.load_xdna b env) (load b env .aie_profile)
    | _ => load b env .aie_profile
  | m => load b env m

/-- The plugins `update_device` goes through, in source order. -/
def update_order : Build → List Module
  | .client _ => [.ml_timeline, .aie_halt, .aie_profile, .aie_trace, .aie_debug, .aie_pc]
  | .ve2 => [.ml_timeline, .aie_halt, .aie_trace, .aie_debug, .aie_status, .aie_profile]
  | .generic => [.pl_deadlock, .aie_trace, .aie_profile]

/-- The plugins `finish_flush_device` goes through, in source order. -/
def flush_order : Build → List Module
  | .client _ => [.ml_timeline, .aie_halt, .aie_profile, .aie_trace, .aie_debug, .aie_pc]
  | .ve2 => [.aie_halt, .aie_trace, .aie_debug, .aie_status, .ml_timeline, .aie_profile]
  | .generic => [.pl_deadlock, .aie_trace, .aie_profile]

/-- One call of `load_once_and_update` in `update_device`, working on the globals of
the plugin whose functions it is given. -/
def update_one (b : Build) (env : Env) (handle : Nat) (hw_context_flow : Bool) (m : Module)
    (p : Plugin) : Outcome Plugin :=
  load_once_and_update (ini_check env m) (load_function b env m)
    (plugin_update_device env m handle hw_context_flow) (load_fail_msg m) (update_fail_msg m) p

/-- A statement that works on the globals of namespace `m`, as a statement on all the
globals. -/
def on_plugin (f : Module → Plugin → Outcome Plugin) (m : Module) (s : State) : Outcome State :=
  ⟨{ s with plugin := Function.update s.plugin m (f m (s.plugin m)).state },
    (f m (s.plugin m)).events, (f m (s.plugin m)).raised⟩

/-- Statements executed one after the other; an exception leaves the sequence. -/
def run_all (f : Module → State → Outcome State) : List Module → State → Outcome State
  | [], s => Outcome.ret s
  | m :: ms, s => (f m s).andThen (run_all f ms)

/-- The condition `get_ml_timeline() || get_aie_profile() || ...` of the Windows client
build, evaluated left to right until one getter answers true. -/
def any_config (env : Env) : List Module → Thrown Bool
  | [] => .value false
  | m :: ms =>
    match env.config m with
    | .raise what => .raise what
    | .value true => .value true
    | .value false => any_config env ms

/-- The getters of the condition guarding `load_core`, in source order. -/
def core_dependents : List Module :=
  [.ml_timeline, .aie_profile, .aie_trace, .aie_debug, .aie_halt, .aie_pc]

/-- The entry point `xrt_core::xdp::update_device(void* handle, bool hw_context_flow)`. -/
def update_device (b : Build) (env : Env) (handle : Nat) (hw_context_flow : Bool) (s : State) :
    Outcome State :=
  match b with
  | .client true =>
    match any_config env core_dependents with
    | .raise what => ⟨s, [], some what⟩
    | .value false =>
      run_all (on_plugin (update_one b env handle hw_context_flow)) (update_order b) s
    | .value true =>
      match (core.load_core env s).raised with
      | some what =>
        ⟨(core.load_core env s).state,
          (core.load_core env s).events ++ [Event.message core_fail_msg what], none⟩
      | none =>
        (core.load_core env s).andThen
          (run_all (on_plugin (update_one b env handle hw_context_flow)) (update_order b))
  | _ => run_all (on_plugin (update_one b env handle hw_context_flow)) (update_order b) s

/-- One statement `if (enabled) <end function>(handle);` of `finish_flush_device`. -/
def flush_one (env : Env) (handle : Nat) (m : Module) (p : Plugin) : Outcome Plugin :=
  match ini_check env m with
  | .raise what => ⟨p, [], some what⟩
  | .value false => Outcome.ret p
  | .value true => plugin_finish_flush_device env m handle p

/-- The entry point `xrt_core::xdp::finish_flush_device(void* handle)`. -/
def finish_flush_device (b : Build) (env : Env) (handle : Nat) (s : State) : Outcome State :=
  run_all (on_plugin (flush_one env handle)) (flush_order b) s

/-- One call of an entry point by the embedding runtime, with the behaviour of the
collaborators during that call. -/
inductive Call where
  | activate (env : Env) (handle : Nat) (hw_context_flow : Bool)
  | finalize (env : Env) (handle : Nat)

/-- Runs one call. -/
def Call.run (b : Build) : Call → State → Outcome State
  | .activate env handle hw_context_flow, s => update_device b env handle hw_context_flow s
  | .finalize env handle, s => finish_flush_device b env handle s

/-- Runs a sequence of calls, each from the state the previous one left (also when it
left by an exception), and gives the outcome of every call. -/
def run_calls (b : Build) : List Call → State → List (Outcome State)
  | [], _ => []
  | c :: cs, s => c.run b s :: run_calls b cs (c.run b s).state

/-- Libraries loaded on behalf of a plugin. -/
def libnames : Module → List String
  | .aie_profile => [libname .aie_profile, "xdp_aie_profile_plugin_xdna"]
  | .aie_trace => [libname .aie_trace, "xdp_aie_trace_plugin_xdna"]
  | m => [libname m]

/-- Fixed parts of the debug messages sent on behalf of a plugin. -/
def message_heads (m : Module) : List String :=
  [load_fail_msg m, update_fail_msg m] ++
    (match m with
     | .aie_profile => [xdna_mode_msg .aie_profile, zocl_mode_msg .aie_profile]
     | .aie_trace => [xdna_mode_msg .aie_trace, zocl_mode_msg .aie_trace]
     | _ => [])

/-- Whether an event belongs to the processing of plugin `m`: a load request for one of
its libraries, a resolution of one of its symbols, a call through one of its slots, or
one of its messages. -/
def Event.concerns (m : Module) : Event → Bool
  | .load_request name => decide (name ∈ libnames m)
  | .dlsym _ sym => decide (sym = update_symbol m ∨ sym = end_symbol m)
  | .callback m' _ _ _ _ => decide (m' = m)
  | .message head _ => decide (head ∈ message_heads m)

/-! ## Vocabulary of the statements -/

/-- Every event a statement produces belongs to the plugin it works on. -/
def Local (g : Module → Plugin → Outcome Plugin) : Prop :=
  ∀ m p e, e ∈ (g m p).events → e.concerns m = true

/-- No configuration getter throws. -/
def Env.config_returns (env : Env) : Prop := ∀ m w, env.config m ≠ Thrown.raise w

/-- The explicit load of the XDP core library, where the build has one and a dependent
plugin is enabled, does not throw. -/
def core_loads (b : Build) (env : Env) (s : State) : Prop :=
  b = Build.client true → any_config env core_dependents = Thrown.value true →
    (core.load_core env s).raised = none

/-- The events `finish_flush_device` owes plugin `m`: one call of its end/flush callback
with the handle when the plugin is enabled and the slot is bound, nothing otherwise. -/
def expected_flush (env : Env) (handle : Nat) (m : Module) (p : Plugin) : List Event :=
  match ini_check env m, p.end_cb with
  | .value true, some fn => [Event.callback m .flush fn handle none]
  | _, _ => []

/-- Whether the load function of plugin `m` is, in build `b`, the lambda that chooses
between `load_xdna()` and `load()` by the mode string. -/
def uses_mode : Build → Module → Bool
  | .ve2, .aie_trace => true
  | .ve2, .aie_profile => true
  | _, _ => false

/-- Name of the library the static loader in `load_xdna()` is constructed with
(`aie::profile` and `aie::trace` only). -/
def xdna_libname (m : Module) : String := libname m ++ "_xdna"

/-- The `load_xdna()` functions in one shape. -/
def xdna_load (b : Build) (env : Env) (m : Module) (p : Plugin) : Outcome Plugin :=
  static_local Plugin.loader_xdna (fun p => { p with loader_xdna := true })
    (module_loader env (xdna_libname m) (register_callbacks b env m)) p

/-- The library whose static loader the load function of `m` reaches under `env`;
`none` when the mode getter throws before any loader is reached. -/
def selected_library (b : Build) (env : Env) (m : Module) : Option String :=
  if uses_mode b m then
    match env.get_xdp_mode with
    | .raise _ => none
    | .value mode => some (if mode = "xdna" then xdna_libname m else libname m)
  else some (libname m)

/-- The initialisation flag of the static loader constructed with library `name`. -/
def loader_flag (m : Module) (name : String) (p : Plugin) : Bool :=
  if name = libname m then p.loader else p.loader_xdna

/-- Load requests and symbol resolutions. -/
def Event.is_load : Event → Bool
  | .load_request _ => true
  | .dlsym _ _ => true
  | _ => false

/-- Debug messages. -/
def Event.is_message : Event → Bool
  | .message _ _ => true
  | _ => false

/-- Calls of plugin callbacks. -/
def Event.is_callback : Event → Bool
  | .callback _ _ _ _ _ => true
  | _ => false

/-- Plugin `m` went through its `load_once_and_update` in the outcome `o` of a call of
`update_device` started in state `s`: the events of the call that concern `m` begin
with those of its load function run on its globals, its globals are the ones the load
function left, and if its `update_device_cb` is bound the callback was called with the
arguments of the call. -/
def Processed (b : Build) (env : Env) (handle : Nat) (flag : Bool) (s : State) (m : Module)
    (o : Outcome State) : Prop :=
  (∃ rest, o.events.filter (Event.concerns m)
      = (load_function b env m (s.plugin m)).events ++ rest) ∧
  o.state.plugin m = (load_function b env m (s.plugin m)).state ∧
  ∀ fn, (o.state.plugin m).update_device_cb = some fn →
    Event.callback m .update fn handle (if takes_flag m then some flag else none) ∈ o.events

/-- The same collaborators with the getter of plugin `m` answering false. -/
def Env.disable (env : Env) (m : Module) : Env :=
  { env with config := Function.update env.config m (.value false) }

/-- The collaborators of a call. -/
def Call.env : Call → Env
  | .activate env _ _ => env
  | .finalize env _ => env

/-- The library identifier the variant selection asks for: for AIE profile and AIE
trace the xdna one when the mode string is "xdna" and the default one otherwise. -/
def variant_library (m : Module) (mode : String) : String :=
  match m with
  | .aie_profile =>
    if mode = "xdna" then "xdp_aie_profile_plugin_xdna" else "xdp_aie_profile_plugin"
  | .aie_trace =>
    if mode = "xdna" then "xdp_aie_trace_plugin_xdna" else "xdp_aie_trace_plugin"
  | m => libname m

namespace Sample

/-- Only AIE trace is enabled, the mode is the default one, every library loads with
handle 7, the two AIE trace symbols resolve to the callables 1 and 2, and no callback
throws. -/
def trace_only : Env :=
  { config := fun m => .value (m == .aie_trace)
    get_xdp_mode := .value "zocl"
    emulation_mode_set := false
    load_library := fun _ => .value 7
    dlsym := fun _ sym =>
      if sym = "updateAIEDevice" then some 1
      else if sym = "finishFlushAIEDevice" then some 2 else none
    invoke := fun _ _ _ => none }

/-- AIE trace and AIE profile are enabled; the AIE trace library cannot be loaded, the
others load with handle 7; the AIE profile symbols resolve to the callables 3 and 4. -/
def trace_missing : Env :=
  { config := fun m => .value (m == .aie_trace || m == .aie_profile)
    get_xdp_mode := .value "zocl"
    emulation_mode_set := false
    load_library := fun name =>
      if name = "xdp_aie_trace_plugin" then .raise "library not found" else .value 7
    dlsym := fun _ sym =>
      if sym = "updateAIECtrDevice" then some 3
      else if sym = "endAIECtrPoll" then some 4 else none
    invoke := fun _ _ _ => none }

/-- Like `trace_only`, but the getter of PL deadlock detection throws. -/
def getter_throws : Env :=
  { trace_only with
    config := fun m => if m = .pl_deadlock then .raise "bad value" else .value (m == .aie_trace) }

/-- Like `trace_only`, but the XDP core library cannot be loaded. -/
def core_missing : Env :=
  { trace_only with
    load_library := fun name =>
      if name = "xdp_core" then .raise "library not found" else .value 7 }

/-- Only AIE profile is enabled; the mode string is `mode`; the xdna library loads with
handle 7 and the default one with handle 8; each symbol resolves to a callable that
depends on the library handle. -/
def profile_in_mode (mode : String) : Env :=
  { config := fun m => .value (m == .aie_profile)
    get_xdp_mode := .value mode
    emulation_mode_set := false
    load_library := fun name => if name = "xdp_aie_profile_plugin_xdna" then .value 7 else .value 8
    dlsym := fun handle sym =>
      if sym = "updateAIECtrDevice" then some (10 * handle + 1)
      else if sym = "endAIECtrPoll" then some (10 * handle + 2) else none
    invoke := fun _ _ _ => none }

/-- AIE trace and AIE profile are enabled and bound to the callables 1 to 4; the end
callback of AIE trace (callable 2) throws. -/
def trace_flush_throws : Env :=
  { config := fun m => .value (m == .aie_trace || m == .aie_profile)
    get_xdp_mode := .value "zocl"
    emulation_mode_set := false
    load_library := fun _ => .value 7
    dlsym := fun _ sym =>
      if sym = "updateAIEDevice" then some 1
      else if sym = "finishFlushAIEDevice" then some 2
      else if sym = "updateAIECtrDevice" then some 3
      else if sym = "endAIECtrPoll" then some 4 else none
    invoke := fun fn _ _ => if fn = 2 then some "flush failed" else none }

/-- AIE trace and AIE profile are enabled and every library loads, but only the AIE
profile symbols resolve: the slots of AIE trace stay empty. -/
def trace_symbols_missing : Env :=
  { trace_missing with load_library := fun _ => .value 7 }

/-- ML timeline, AIE halt and AIE trace are configured; the getter of AIE halt throws and
the ML timeline library cannot be loaded. -/
def halt_getter_throws : Env :=
  { config := fun m =>
      if m = .aie_halt then .raise "bad value" else .value (m == .ml_timeline || m == .aie_trace)
    get_xdp_mode := .value "zocl"
    emulation_mode_set := false
    load_library := fun name =>
      if name = "xdp_ml_timeline_plugin" then .raise "library not found" else .value 7
    dlsym := fun _ sym =>
      if sym = "updateAIEDevice" then some 1
      else if sym = "finishFlushAIEDevice" then some 2 else none
    invoke := fun _ _ _ => none }

/-- ML timeline and AIE halt are enabled and the getter of AIE profile throws; every
library loads with handle 9; the ML timeline library exports neither symbol, the AIE
halt symbols resolve to the callables 5 and 6. -/
def profile_getter_throws : Env :=
  { config := fun m =>
      if m = .aie_profile then .raise "bad value" else .value (m == .ml_timeline || m == .aie_halt)
    get_xdp_mode := .value "zocl"
    emulation_mode_set := false
    load_library := fun _ => .value 9
    dlsym := fun _ sym =>
      if sym = "updateDeviceAIEHalt" then some 5
      else if sym = "finishFlushDeviceAIEHalt" then some 6 else none
    invoke := fun _ _ _ => none }

end Sample

/-! ## Basic facts -/

theorem concerns_unique (e : Event) (m m' : Module) (h : e.concerns m = true)
    (h' : e.concerns m' = true) : m = m' := by
  cases e with
  | load_request name =>
    cases m <;> cases m' <;> first
      | rfl
      | (simp [Event.concerns, libnames, libname] at h h'
         try (rcases h with h | h <;> rcases h' with h' | h' <;> simp [h] at h')
         try (rcases h with h | h <;> simp [h] at h')
         try (rcases h' with h' | h' <;> simp [h] at h')
         try (simp [h] at h'))
  | dlsym hd sym =>
    cases m <;> cases m' <;> first
      | rfl
      | (simp [Event.concerns, update_symbol, end_symbol] at h h'
         rcases h with h | h <;> rcases h' with h' | h' <;> simp [h] at h')
  | callback m0 k fn hd fl =>
    simp [Event.concerns] at h h'
    rw [← h, ← h']
  | message head what =>
    cases m <;> cases m' <;> first
      | rfl
      | (simp [Event.concerns, message_heads, load_fail_msg, update_fail_msg, xdna_mode_msg,
           zocl_mode_msg] at h h'
         rcases h with h | h | h | h <;> rcases h' with h' | h' | h' | h' <;> simp [h] at h')
      | (simp [Event.concerns, message_heads, load_fail_msg, update_fail_msg, xdna_mode_msg,
           zocl_mode_msg] at h h'
         rcases h with h | h <;> rcases h' with h' | h' | h' | h' <;> simp [h] at h')
      | (simp [Event.concerns, message_heads, load_fail_msg, update_fail_msg, xdna_mode_msg,
           zocl_mode_msg] at h h'
         rcases h with h | h | h | h <;> rcases h' with h' | h' <;> simp [h] at h')
      | (simp [Event.concerns, message_heads, load_fail_msg, update_fail_msg, xdna_mode_msg,
           zocl_mode_msg] at h h'
         rcases h with h | h <;> rcases h' with h' | h' <;> simp [h] at h')


/-! ## Sequences of statements on separate namespaces -/

theorem filter_concerns_self {m : Module} {l : List Event}
    (h : ∀ e ∈ l, e.concerns m = true) : l.filter (Event.concerns m) = l :=
  List.filter_eq_self.mpr h

theorem filter_concerns_other {m x : Module} {l : List Event}
    (h : ∀ e ∈ l, e.concerns x = true) (hne : m ≠ x) : l.filter (Event.concerns m) = [] := by
  rw [List.filter_eq_nil_iff]
  intro e he hc
  exact hne (concerns_unique e m x hc (h e he))

theorem run_all_core_loader (g : Module → Plugin → Outcome Plugin) :
    ∀ (ms : List Module) (s : State),
      (run_all (on_plugin g) ms s).state.core_loader = s.core_loader := by
  intro ms
  induction ms with
  | nil => intro s; rfl
  | cons x xs ih =>
    intro s
    simp only [run_all, Outcome.andThen]
    cases hr : (on_plugin g x s).raised with
    | some w => simp [on_plugin]
    | none => simp [ih, on_plugin]

theorem run_all_cases (g : Module → Plugin → Outcome Plugin) (hloc : Local g) :
    ∀ (ms : List Module), ms.Nodup → ∀ (s : State) (m : Module),
      (((run_all (on_plugin g) ms s).events.filter (Event.concerns m) = [] ∧
          (run_all (on_plugin g) ms s).state.plugin m = s.plugin m) ∨
        (m ∈ ms ∧
          (run_all (on_plugin g) ms s).events.filter (Event.concerns m)
            = (g m (s.plugin m)).events ∧
          (run_all (on_plugin g) ms s).state.plugin m = (g m (s.plugin m)).state)) := by
  intro ms
  induction ms with
  | nil => intro _ s m; left; simp [run_all, Outcome.ret]
  | cons x xs ih =>
    intro hnd s m
    have hx : x ∉ xs := (List.nodup_cons.mp hnd).1
    have hxs : xs.Nodup := (List.nodup_cons.mp hnd).2
    simp only [run_all, Outcome.andThen]
    by_cases hm : m = x
    · subst hm
      right
      refine ⟨List.mem_cons_self _ _, ?_⟩
      cases hr : (on_plugin g m s).raised with
      | some w =>
        simp only [on_plugin, Function.update_same]
        exact ⟨filter_concerns_self (hloc m _), trivial⟩
      | none =>
        have h := ih hxs (on_plugin g m s).state m
        rcases h with ⟨h1, h2⟩ | ⟨h1, _⟩
        · refine ⟨?_, ?_⟩
          · simp only [List.filter_append, h1, List.append_nil]
            exact filter_concerns_self (hloc m _)
          · rw [h2]
            simp [on_plugin]
        · exact absurd h1 hx
    · have hother : (on_plugin g x s).events.filter (Event.concerns m) = [] :=
        filter_concerns_other (hloc x _) hm
      have hpl : (on_plugin g x s).state.plugin m = s.plugin m := by
        simp [on_plugin, Function.update_noteq hm]
      cases hr : (on_plugin g x s).raised with
      | some w => left; exact ⟨hother, hpl⟩
      | none =>
        have h := ih hxs (on_plugin g x s).state m
        rw [hpl] at h
        rcases h with ⟨h1, h2⟩ | ⟨h0, h1, h2⟩
        · left
          simp only [List.filter_append, h1, hother, List.append_nil]
          exact ⟨trivial, h2⟩
        · right
          simp only [List.filter_append, h1, hother, List.nil_append]
          exact ⟨List.mem_cons_of_mem _ h0, trivial, h2⟩

theorem run_all_returned (g : Module → Plugin → Outcome Plugin) (hloc : Local g) :
    ∀ (ms : List Module), ms.Nodup → ∀ (s : State),
      (run_all (on_plugin g) ms s).raised = none → ∀ m ∈ ms,
        ((g m (s.plugin m)).raised = none ∧
          (run_all (on_plugin g) ms s).events.filter (Event.concerns m)
            = (g m (s.plugin m)).events ∧
          (run_all (on_plugin g) ms s).state.plugin m = (g m (s.plugin m)).state) := by
  intro ms
  induction ms with
  | nil => intro _ s _ m hm; simp at hm
  | cons x xs ih =>
    intro hnd s hret m hm
    have hx : x ∉ xs := (List.nodup_cons.mp hnd).1
    have hxs : xs.Nodup := (List.nodup_cons.mp hnd).2
    have hcases := run_all_cases g hloc (x :: xs) hnd s m
    simp only [run_all, Outcome.andThen] at hret hcases ⊢
    cases hr : (on_plugin g x s).raised with
    | some w => simp [hr] at hret
    | none =>
      simp only [hr] at hret hcases ⊢
      rcases List.mem_cons.mp hm with hmx | hmxs
      · subst hmx
        refine ⟨by simpa [on_plugin] using hr, ?_⟩
        rcases hcases with ⟨h1, h2⟩ | ⟨_, h1, h2⟩
        · have h := ih hxs (on_plugin g m s).state
          have h3 := run_all_cases g hloc xs hxs (on_plugin g m s).state m
          rcases h3 with ⟨h4, h5⟩ | ⟨h4, _⟩
          · refine ⟨?_, ?_⟩
            · simp only [List.filter_append, h4, List.append_nil]
              exact filter_concerns_self (hloc m _)
            · rw [h5]
              simp [on_plugin]
          · exact absurd h4 hx
        · exact ⟨h1, h2⟩
      · have hne : m ≠ x := fun h => hx (h ▸ hmxs)
        have hpl : (on_plugin g x s).state.plugin m = s.plugin m := by
          simp [on_plugin, Function.update_noteq hne]
        have h := ih hxs (on_plugin g x s).state hret m hmxs
        rw [hpl] at h
        have hother : (on_plugin g x s).events.filter (Event.concerns m) = [] :=
          filter_concerns_other (hloc x _) hne
        simp only [List.filter_append, hother, List.nil_append]
        exact h

theorem run_all_total (g : Module → Plugin → Outcome Plugin) :
    ∀ (ms : List Module), ms.Nodup → ∀ (s : State),
      (∀ m ∈ ms, (g m (s.plugin m)).raised = none) →
        (run_all (on_plugin g) ms s).raised = none := by
  intro ms
  induction ms with
  | nil => intro _ s _; rfl
  | cons x xs ih =>
    intro hnd s hall
    have hx : x ∉ xs := (List.nodup_cons.mp hnd).1
    have hxs : xs.Nodup := (List.nodup_cons.mp hnd).2
    have hr : (on_plugin g x s).raised = none := by
      simpa [on_plugin] using hall x (List.mem_cons_self _ _)
    simp only [run_all, Outcome.andThen, hr]
    apply ih hxs
    intro m hm
    have hne : m ≠ x := fun h => hx (h ▸ hm)
    have hpl : (on_plugin g x s).state.plugin m = s.plugin m := by
      simp [on_plugin, Function.update_noteq hne]
    rw [hpl]
    exact hall m (List.mem_cons_of_mem _ hm)

/-! ## Events of the statements on one namespace -/

theorem concerns_libname (m : Module) : (Event.load_request (libname m)).concerns m = true := by
  cases m <;> decide

theorem concerns_dlsym (m : Module) (handle : Nat) (k : Slot) :
    (Event.dlsym handle (symbol m k)).concerns m = true := by
  cases k <;> simp [Event.concerns, symbol]

theorem concerns_load_fail (m : Module) (w : String) :
    (Event.message (load_fail_msg m) w).concerns m = true := by
  simp [Event.concerns, message_heads]

theorem concerns_update_fail (m : Module) (w : String) :
    (Event.message (update_fail_msg m) w).concerns m = true := by
  simp [Event.concerns, message_heads]

theorem register_slots_events (env : Env) (m : Module) (handle : Nat) :
    ∀ (ks : List Slot) (p : Plugin),
      (register_slots env m handle ks p).events = ks.map fun k => Event.dlsym handle (symbol m k) := by
  intro ks
  induction ks with
  | nil => intro p; rfl
  | cons k ks ih => intro p; simp [register_slots, ih]

theorem register_slots_raised (env : Env) (m : Module) (handle : Nat) :
    ∀ (ks : List Slot) (p : Plugin), (register_slots env m handle ks p).raised = none := by
  intro ks
  induction ks with
  | nil => intro p; rfl
  | cons k ks ih => intro p; simp [register_slots, ih]

theorem module_loader_concerns (b : Build) (env : Env) (m : Module) (name : String)
    (hname : (Event.load_request name).concerns m = true) (p : Plugin) :
    ∀ e ∈ (module_loader env name (register_callbacks b env m) p).events,
      e.concerns m = true := by
  intro e he
  unfold module_loader at he
  cases hl : env.load_library name with
  | raise w =>
    simp [hl] at he
    rw [he]; exact hname
  | value handle =>
    simp [hl, register_callbacks, register_slots_events] at he
    rcases he with he | ⟨k, _, he⟩
    · rw [he]; exact hname
    · rw [← he]; exact concerns_dlsym m handle k

theorem static_local_events_subset {σ : Type} (done : σ → Bool) (mark : σ → σ)
    (ctor : σ → Outcome σ) (s : σ) :
    ∀ e ∈ (static_local done mark ctor s).events, e ∈ (ctor s).events := by
  intro e he
  unfold static_local at he
  by_cases hd : done s = true
  · simp [hd, Outcome.ret] at he
  · simp only [hd] at he
    cases hr : (ctor s).raised with
    | some w => simpa [hr] using he
    | none => simpa [hr] using he

theorem load_concerns (b : Build) (env : Env) (m : Module) (p : Plugin) :
    ∀ e ∈ (load b env m p).events, e.concerns m = true := by
  intro e he
  exact module_loader_concerns b env m _ (concerns_libname m) p e
    (static_local_events_subset _ _ _ _ e he)

theorem load_function_concerns (b : Build) (env : Env) (m : Module) (p : Plugin) :
    ∀ e ∈ (load_function b env m p).events, e.concerns m = true := by
  intro e he
  have hgen : ∀ m', e ∈ (load b env m' p).events → e.concerns m' = true :=
    fun m' h => load_concerns b env m' p e h
  cases m with
  | aie_trace =>
    cases b with
    | ve2 =>
      simp only [load_function, load_by_mode] at he
      cases hm : env.get_xdp_mode with
      | raise w => simp [hm] at he
      | value mode =>
        simp only [hm] at he
        by_cases hx : mode = "xdna"
        · simp only [hx, if_true, Outcome.andThen, send] at he
          simp only [List.mem_append, List.mem_singleton] at he
          rcases he with he | he
          · rw [he]; decide
          · exact module_loader_concerns .ve2 env .aie_trace _ (by decide) _ e
              (static_local_events_subset _ _ _ _ e he)
        · simp only [hx, if_false, Outcome.andThen, send] at he
          simp only [List.mem_append, List.mem_singleton] at he
          rcases he with he | he
          · rw [he]; decide
          · exact hgen _ he
    | client w => exact hgen _ he
    | generic => exact hgen _ he
  | aie_profile =>
    cases b with
    | ve2 =>
      simp only [load_function, load_by_mode] at he
      cases hm : env.get_xdp_mode with
      | raise w => simp [hm] at he
      | value mode =>
        simp only [hm] at he
        by_cases hx : mode = "xdna"
        · simp only [hx, if_true, Outcome.andThen, send] at he
          simp only [List.mem_append, List.mem_singleton] at he
          rcases he with he | he
          · rw [he]; decide
          · exact module_loader_concerns .ve2 env .aie_profile _ (by decide) _ e
              (static_local_events_subset _ _ _ _ e he)
        · simp only [hx, if_false, Outcome.andThen, send] at he
          simp only [List.mem_append, List.mem_singleton] at he
          rcases he with he | he
          · rw [he]; decide
          · exact hgen _ he
    | client w => exact hgen _ he
    | generic => exact hgen _ he
  | ml_timeline => exact hgen _ he
  | aie_halt => exact hgen _ he
  | aie_debug => exact hgen _ he
  | aie_pc => exact hgen _ he
  | aie_status => exact hgen _ he
  | pl_deadlock => exact hgen _ he

theorem try_catch_events {σ : Type} (o : Outcome σ) (msg : String) :
    ∀ e ∈ (try_catch o msg).events, e ∈ o.events ∨ ∃ w, e = Event.message msg w := by
  intro e he
  unfold try_catch at he
  cases hr : o.raised with
  | some w =>
    simp [hr] at he
    rcases he with he | he
    · exact Or.inl he
    · exact Or.inr ⟨w, he⟩
  | none => simp [hr] at he; exact Or.inl he

theorem try_catch_raised {σ : Type} (o : Outcome σ) (msg : String) :
    (try_catch o msg).raised = none := by
  unfold try_catch
  cases hr : o.raised <;> simp [hr]

theorem try_catch_state {σ : Type} (o : Outcome σ) (msg : String) :
    (try_catch o msg).state = o.state := by
  unfold try_catch
  cases hr : o.raised <;> simp

theorem plugin_update_device_concerns (env : Env) (m : Module) (handle : Nat) (flag : Bool)
    (p : Plugin) : ∀ e ∈ (plugin_update_device env m handle flag p).events,
      e.concerns m = true := by
  intro e he
  unfold plugin_update_device at he
  cases hc : p.update_device_cb with
  | none => simp [hc, Outcome.ret] at he
  | some fn => simp [hc, call_cb] at he; rw [he]; simp [Event.concerns]

theorem plugin_update_device_state (env : Env) (m : Module) (handle : Nat) (flag : Bool)
    (p : Plugin) : (plugin_update_device env m handle flag p).state = p := by
  unfold plugin_update_device
  cases hc : p.update_device_cb <;> simp [Outcome.ret, call_cb]

theorem update_one_local (b : Build) (env : Env) (handle : Nat) (flag : Bool) :
    Local (update_one b env handle flag) := by
  intro m p e he
  unfold update_one load_once_and_update at he
  cases hi : ini_check env m with
  | raise w => simp [hi] at he
  | value en =>
    cases en with
    | false => simp [hi, Outcome.ret] at he
    | true =>
      simp only [hi, Outcome.andThen, try_catch_raised, List.mem_append] at he
      rcases he with he | he
      · rcases try_catch_events _ _ e he with h | ⟨w, h⟩
        · exact load_function_concerns b env m p e h
        · rw [h]; exact concerns_load_fail m w
      · rcases try_catch_events _ _ e he with h | ⟨w, h⟩
        · exact plugin_update_device_concerns env m handle flag _ e h
        · rw [h]; exact concerns_update_fail m w

theorem update_one_raised (b : Build) (env : Env) (handle : Nat) (flag : Bool) (m : Module)
    (p : Plugin) :
    (update_one b env handle flag m p).raised
      = (match ini_check env m with
         | .raise w => some w
         | .value _ => none) := by
  unfold update_one load_once_and_update
  cases hi : ini_check env m with
  | raise w => rfl
  | value en =>
    cases en with
    | false => rfl
    | true => simp [Outcome.andThen, try_catch_raised]

theorem register_slots_disable (env : Env) (m m' : Module) (hd : Nat) :
    ∀ (ks : List Slot) (p : Plugin),
      register_slots (env.disable m) m' hd ks p = register_slots env m' hd ks p := by
  intro ks
  induction ks with
  | nil => intro p; rfl
  | cons k ks ih =>
    intro p
    have ha : assign_slot (env.disable m) m' hd k p = assign_slot env m' hd k p := rfl
    simp only [register_slots, ha, ih]

theorem update_one_disabled (b : Build) (env : Env) (handle : Nat) (flag : Bool) (m : Module)
    (p : Plugin) (h : ini_check env m = .value false) :
    update_one b env handle flag m p = Outcome.ret p := by
  simp [update_one, load_once_and_update, h]

theorem flush_one_local (env : Env) (handle : Nat) : Local (flush_one env handle) := by
  intro m p e he
  unfold flush_one plugin_finish_flush_device at he
  cases hi : ini_check env m with
  | raise w => simp [hi] at he
  | value en =>
    cases en with
    | false => simp [hi, Outcome.ret] at he
    | true =>
      cases hc : p.end_cb with
      | none => simp [hi, hc, Outcome.ret] at he
      | some fn => simp [hi, hc, call_cb] at he; rw [he]; simp [Event.concerns]

theorem flush_one_state (env : Env) (handle : Nat) (m : Module) (p : Plugin) :
    (flush_one env handle m p).state = p := by
  unfold flush_one plugin_finish_flush_device
  cases hi : ini_check env m with
  | raise w => rfl
  | value en =>
    cases en with
    | false => rfl
    | true => cases hc : p.end_cb <;> simp [Outcome.ret, call_cb]

theorem update_order_nodup (b : Build) : (update_order b).Nodup := by
  cases b <;> simp [update_order]

theorem flush_order_nodup (b : Build) : (flush_order b).Nodup := by
  cases b <;> simp [flush_order]

/-! ## The entry points, seen from one plugin -/

theorem ini_check_returns (env : Env) (h : env.config_returns) (m : Module) (w : String) :
    ini_check env m ≠ Thrown.raise w := by
  have h1 := h m
  cases m <;> simp only [ini_check] <;> try exact h1 w
  cases hc : env.config .pl_deadlock with
  | raise w' => exact absurd hc (h1 w')
  | value en => cases en <;> simp

theorem any_config_returns (env : Env) (h : env.config_returns) :
    ∀ (ms : List Module) (w : String), any_config env ms ≠ Thrown.raise w := by
  intro ms
  induction ms with
  | nil => intro w; simp [any_config]
  | cons x xs ih =>
    intro w
    simp only [any_config]
    cases hc : env.config x with
    | raise w' => exact absurd hc (h x w')
    | value en => cases en <;> simp [ih]

theorem load_core_plugin (env : Env) (s : State) :
    (core.load_core env s).state.plugin = s.plugin := by
  unfold core.load_core static_local module_loader register_callbacks_empty
  by_cases hd : s.core_loader = true
  · simp [hd, Outcome.ret]
  · cases hl : env.load_library "xdp_core" <;> simp [hd, hl, Outcome.ret]

theorem load_core_events (env : Env) (s : State) :
    ∀ e ∈ (core.load_core env s).events, e = Event.load_request "xdp_core" := by
  intro e he
  unfold core.load_core static_local module_loader register_callbacks_empty at he
  by_cases hd : s.core_loader = true
  · simp [hd, Outcome.ret] at he
  · cases hl : env.load_library "xdp_core" <;> simp [hd, hl, Outcome.ret] at he <;> exact he

theorem core_request_concerns (m : Module) :
    (Event.load_request "xdp_core").concerns m = false := by
  cases m <;> decide

theorem core_message_concerns (m : Module) (w : String) :
    (Event.message core_fail_msg w).concerns m = false := by
  cases m <;>
    simp [Event.concerns, message_heads, core_fail_msg, load_fail_msg, update_fail_msg,
      xdna_mode_msg, zocl_mode_msg]

theorem load_core_filter (env : Env) (s : State) (m : Module) :
    (core.load_core env s).events.filter (Event.concerns m) = [] := by
  rw [List.filter_eq_nil_iff]
  intro e he
  rw [load_core_events env s e he, core_request_concerns]
  simp

theorem update_device_cases (b : Build) (env : Env) (handle : Nat) (flag : Bool) (s : State)
    (m : Module) :
    (((update_device b env handle flag s).events.filter (Event.concerns m) = [] ∧
        (update_device b env handle flag s).state.plugin m = s.plugin m) ∨
      (m ∈ update_order b ∧
        (update_device b env handle flag s).events.filter (Event.concerns m)
          = (update_one b env handle flag m (s.plugin m)).events ∧
        (update_device b env handle flag s).state.plugin m
          = (update_one b env handle flag m (s.plugin m)).state)) := by
  have hrun := fun s' => run_all_cases (update_one b env handle flag)
    (update_one_local b env handle flag) (update_order b) (update_order_nodup b) s' m
  cases b with
  | ve2 => exact hrun s
  | generic => exact hrun s
  | client win32 =>
    cases win32 with
    | false => exact hrun s
    | true =>
      simp only [update_device]
      cases ha : any_config env core_dependents with
      | raise w => left; simp
      | value en =>
        cases en with
        | false => exact hrun s
        | true =>
          simp only []
          cases hr : (core.load_core env s).raised with
          | some w =>
            left
            simp only [List.filter_append, load_core_filter, load_core_plugin, List.nil_append]
            simp [core_message_concerns]
          | none =>
            simp only [Outcome.andThen, hr, List.filter_append, load_core_filter,
              List.nil_append]
            have h := hrun (core.load_core env s).state
            rw [load_core_plugin] at h
            exact h

theorem update_device_reached (b : Build) (env : Env) (handle : Nat) (flag : Bool) (s : State)
    (hcfg : env.config_returns) (hcore : core_loads b env s) :
    (update_device b env handle flag s).raised = none ∧
    ∀ m ∈ update_order b,
      ((update_device b env handle flag s).events.filter (Event.concerns m)
          = (update_one b env handle flag m (s.plugin m)).events ∧
        (update_device b env handle flag s).state.plugin m
          = (update_one b env handle flag m (s.plugin m)).state) := by
  have htot : ∀ s', (run_all (on_plugin (update_one b env handle flag)) (update_order b) s').raised
      = none := by
    intro s'
    apply run_all_total _ _ (update_order_nodup b)
    intro m _
    rw [update_one_raised]
    cases hi : ini_check env m with
    | raise w => exact absurd hi (ini_check_returns env hcfg m w)
    | value en => rfl
  have hrun := fun s' => run_all_returned (update_one b env handle flag)
    (update_one_local b env handle flag) (update_order b) (update_order_nodup b) s' (htot s')
  have hgen : ((run_all (on_plugin (update_one b env handle flag)) (update_order b) s).raised
      = none ∧ ∀ m ∈ update_order b,
      ((run_all (on_plugin (update_one b env handle flag)) (update_order b) s).events.filter
          (Event.concerns m) = (update_one b env handle flag m (s.plugin m)).events ∧
        (run_all (on_plugin (update_one b env handle flag)) (update_order b) s).state.plugin m
          = (update_one b env handle flag m (s.plugin m)).state)) :=
    ⟨htot s, fun m hm => (hrun s m hm).2⟩
  cases b with
  | ve2 => exact hgen
  | generic => exact hgen
  | client win32 =>
    cases win32 with
    | false => exact hgen
    | true =>
      simp only [update_device]
      cases ha : any_config env core_dependents with
      | raise w => exact absurd ha (any_config_returns env hcfg _ w)
      | value en =>
        cases en with
        | false => exact hgen
        | true =>
          have hr : (core.load_core env s).raised = none := hcore rfl ha
          simp only [hr, Outcome.andThen, List.filter_append, load_core_filter, List.nil_append]
          refine ⟨htot _, fun m hm => ?_⟩
          have h := (hrun (core.load_core env s).state m hm).2
          rw [load_core_plugin] at h
          exact h

theorem run_all_state_eq (g : Module → Plugin → Outcome Plugin)
    (hg : ∀ m p, (g m p).state = p) :
    ∀ (ms : List Module) (s : State), (run_all (on_plugin g) ms s).state = s := by
  have hstep : ∀ x (s : State), (on_plugin g x s).state = s := by
    intro x s
    simp [on_plugin, hg]
  intro ms
  induction ms with
  | nil => intro s; rfl
  | cons x xs ih =>
    intro s
    simp only [run_all, Outcome.andThen]
    cases hr : (on_plugin g x s).raised with
    | some w => exact hstep x s
    | none => simp only [ih]; exact hstep x s

theorem run_all_events_mem (f : Module → State → Outcome State) :
    ∀ (ms : List Module) (s : State), ∀ e ∈ (run_all f ms s).events,
      ∃ m ∈ ms, ∃ s', e ∈ (f m s').events := by
  intro ms
  induction ms with
  | nil => intro s e he; simp [run_all, Outcome.ret] at he
  | cons x xs ih =>
    intro s e he
    simp only [run_all, Outcome.andThen] at he
    cases hr : (f x s).raised with
    | some w =>
      simp only [hr] at he
      exact ⟨x, List.mem_cons_self _ _, s, he⟩
    | none =>
      simp only [hr, List.mem_append] at he
      rcases he with he | he
      · exact ⟨x, List.mem_cons_self _ _, s, he⟩
      · obtain ⟨m, hm, s', h⟩ := ih _ e he
        exact ⟨m, List.mem_cons_of_mem _ hm, s', h⟩

/-! ## Facts about `finish_flush_device` -/

theorem flush_one_events (env : Env) (handle : Nat) (m : Module) (p : Plugin) :
    (flush_one env handle m p).events = expected_flush env handle m p := by
  unfold flush_one plugin_finish_flush_device expected_flush
  cases hi : ini_check env m with
  | raise w => rfl
  | value en =>
    cases en with
    | false => rfl
    | true => cases hc : p.end_cb <;> simp [Outcome.ret, call_cb]

theorem expected_flush_mem (env : Env) (handle : Nat) (m : Module) (p : Plugin) :
    ∀ e ∈ expected_flush env handle m p, ∃ fn, e = Event.callback m .flush fn handle none := by
  intro e he
  unfold expected_flush at he
  split at he
  · simp at he; exact ⟨_, he⟩
  · simp at he

theorem expected_flush_length (env : Env) (handle : Nat) (m : Module) (p : Plugin) :
    (expected_flush env handle m p).length ≤ 1 := by
  unfold expected_flush
  split <;> simp

theorem flush_one_raised_none (env : Env) (handle : Nat) (m : Module) (p : Plugin)
    (hcfg : env.config_returns) (hinv : ∀ fn, env.invoke fn handle none = none) :
    (flush_one env handle m p).raised = none := by
  unfold flush_one plugin_finish_flush_device
  cases hi : ini_check env m with
  | raise w => exact absurd hi (ini_check_returns env hcfg m w)
  | value en =>
    cases en with
    | false => rfl
    | true => cases hc : p.end_cb <;> simp [Outcome.ret, call_cb, hinv]

/-! ## The load function of a plugin -/

theorem load_function_unfold (b : Build) (env : Env) (m : Module) (p : Plugin) :
    load_function b env m p
      = if uses_mode b m then load_by_mode env m (xdna_load b env m) (load b env m) p
        else load b env m p := by
  cases m <;> cases b <;>
    simp [load_function, uses_mode, xdna_load, xdna_libname, libname, aie.trace.load_xdna,
      aie.profile.load_xdna] <;> rfl

theorem xdna_libname_ne (m : Module) : xdna_libname m ≠ libname m := by
  cases m <;> decide

theorem concerns_xdna_libname (b : Build) (m : Module) (h : uses_mode b m = true) :
    (Event.load_request (xdna_libname m)).concerns m = true := by
  cases m <;> cases b <;> simp [uses_mode] at h <;> decide

theorem send_andThen {σ : Type} (head : String) (f : σ → Outcome σ) (s : σ) :
    (send head s).andThen f = ⟨(f s).state, Event.message head "" :: (f s).events, (f s).raised⟩ := by
  simp [send, Outcome.andThen]

theorem static_local_done {σ : Type} (done : σ → Bool) (mark : σ → σ) (ctor : σ → Outcome σ)
    (s : σ) (h : done s = true) : static_local done mark ctor s = Outcome.ret s := by
  simp [static_local, h]

theorem static_local_failed {σ : Type} (done : σ → Bool) (mark : σ → σ) (env : Env)
    (name : String) (reg : Nat → σ → Outcome σ) (s : σ) (w : String) (h : done s = false)
    (hl : env.load_library name = .raise w) :
    static_local done mark (module_loader env name reg) s
      = ⟨s, [Event.load_request name], some w⟩ := by
  simp [static_local, module_loader, h, hl]

theorem static_local_loaded (done : Plugin → Bool) (mark : Plugin → Plugin) (b : Build)
    (env : Env) (m : Module) (name : String) (p : Plugin) (hd : Nat) (h : done p = false)
    (hl : env.load_library name = .value hd) :
    static_local done mark (module_loader env name (register_callbacks b env m)) p
      = ⟨mark (register_callbacks b env m hd p).state,
          Event.load_request name ::
            (registered_slots b m).map (fun k => Event.dlsym hd (symbol m k)), none⟩ := by
  simp [static_local, module_loader, h, hl, register_callbacks, register_slots_raised,
    register_slots_events]

theorem static_local_request (done : Plugin → Bool) (mark : Plugin → Plugin) (b : Build)
    (env : Env) (m : Module) (name : String) (p : Plugin) (h : done p = false) :
    Event.load_request name
      ∈ (static_local done mark (module_loader env name (register_callbacks b env m)) p).events := by
  cases hl : env.load_library name with
  | raise w => rw [static_local_failed done mark env name _ p w h hl]; simp
  | value hd => rw [static_local_loaded done mark b env m name p hd h hl]; simp

theorem static_local_request_inv (done : Plugin → Bool) (mark : Plugin → Plugin) (b : Build)
    (env : Env) (m : Module) (name n : String) (p : Plugin)
    (hn : Event.load_request n
      ∈ (static_local done mark (module_loader env name (register_callbacks b env m)) p).events) :
    n = name ∧ done p = false := by
  cases h : done p with
  | true => rw [static_local_done done mark _ p h] at hn; simp [Outcome.ret] at hn
  | false =>
    refine ⟨?_, rfl⟩
    cases hl : env.load_library name with
    | raise w =>
      rw [static_local_failed done mark env name _ p w h hl] at hn
      simpa using hn
    | value hd =>
      rw [static_local_loaded done mark b env m name p hd h hl] at hn
      simpa using hn

theorem selected_library_plain (b : Build) (env : Env) (m : Module) (h : uses_mode b m = false) :
    selected_library b env m = some (libname m) := by
  simp [selected_library, h]

theorem loader_flag_libname (m : Module) (p : Plugin) : loader_flag m (libname m) p = p.loader := by
  simp [loader_flag]

theorem loader_flag_xdna (m : Module) (p : Plugin) :
    loader_flag m (xdna_libname m) p = p.loader_xdna := by
  simp [loader_flag, xdna_libname_ne]

theorem load_function_request (b : Build) (env : Env) (m : Module) (p : Plugin) (n : String)
    (hsel : selected_library b env m = some n) (hflag : loader_flag m n p = false) :
    Event.load_request n ∈ (load_function b env m p).events := by
  rw [load_function_unfold]
  unfold selected_library at hsel
  cases hu : uses_mode b m with
  | false =>
    simp only [hu, Bool.false_eq_true, if_false, Option.some.injEq] at hsel ⊢
    subst hsel
    rw [loader_flag_libname] at hflag
    exact static_local_request _ _ b env m _ p hflag
  | true =>
    simp only [hu, if_true] at hsel ⊢
    unfold load_by_mode
    cases hm : env.get_xdp_mode with
    | raise w => simp [hm] at hsel
    | value mode =>
      simp only [hm, Option.some.injEq] at hsel ⊢
      by_cases hx : mode = "xdna"
      · simp only [hx, if_true] at hsel ⊢
        subst hsel
        rw [loader_flag_xdna] at hflag
        rw [send_andThen]
        exact List.mem_cons_of_mem _ (static_local_request _ _ b env m _ p hflag)
      · simp only [hx, if_false] at hsel ⊢
        subst hsel
        rw [loader_flag_libname] at hflag
        rw [send_andThen]
        exact List.mem_cons_of_mem _ (static_local_request _ _ b env m _ p hflag)

theorem load_function_request_inv (b : Build) (env : Env) (m : Module) (p : Plugin) (n : String)
    (hn : Event.load_request n ∈ (load_function b env m p).events) :
    selected_library b env m = some n ∧ loader_flag m n p = false := by
  rw [load_function_unfold] at hn
  unfold selected_library
  cases hu : uses_mode b m with
  | false =>
    simp only [hu, Bool.false_eq_true, if_false] at hn ⊢
    obtain ⟨h1, h2⟩ := static_local_request_inv _ _ b env m _ n p hn
    subst h1
    exact ⟨rfl, by rw [loader_flag_libname]; exact h2⟩
  | true =>
    simp only [hu, if_true] at hn ⊢
    unfold load_by_mode at hn
    cases hm : env.get_xdp_mode with
    | raise w => simp [hm] at hn
    | value mode =>
      simp only [hm] at hn ⊢
      by_cases hx : mode = "xdna"
      · simp only [hx, if_true, send_andThen, List.mem_cons] at hn ⊢
        rcases hn with hn | hn
        · cases hn
        · obtain ⟨h1, h2⟩ := static_local_request_inv _ _ b env m _ n p hn
          subst h1
          exact ⟨rfl, by rw [loader_flag_xdna]; exact h2⟩
      · simp only [hx, if_false, send_andThen, List.mem_cons] at hn ⊢
        rcases hn with hn | hn
        · cases hn
        · obtain ⟨h1, h2⟩ := static_local_request_inv _ _ b env m _ n p hn
          subst h1
          exact ⟨rfl, by rw [loader_flag_libname]; exact h2⟩

theorem load_function_failed (b : Build) (env : Env) (m : Module) (p : Plugin) (n w : String)
    (hsel : selected_library b env m = some n) (hflag : loader_flag m n p = false)
    (hl : env.load_library n = .raise w) :
    (load_function b env m p).state = p ∧ (load_function b env m p).raised = some w := by
  rw [load_function_unfold]
  unfold selected_library at hsel
  cases hu : uses_mode b m with
  | false =>
    simp only [hu, Bool.false_eq_true, if_false, Option.some.injEq] at hsel ⊢
    subst hsel
    rw [loader_flag_libname] at hflag
    unfold load
    rw [static_local_failed _ _ env _ _ p w hflag hl]
    exact ⟨rfl, rfl⟩
  | true =>
    simp only [hu, if_true] at hsel ⊢
    unfold load_by_mode
    cases hm : env.get_xdp_mode with
    | raise w => simp [hm] at hsel
    | value mode =>
      simp only [hm, Option.some.injEq] at hsel ⊢
      by_cases hx : mode = "xdna"
      · simp only [hx, if_true] at hsel ⊢
        subst hsel
        rw [loader_flag_xdna] at hflag
        unfold xdna_load
        rw [send_andThen, static_local_failed _ _ env _ _ p w hflag hl]
        exact ⟨rfl, rfl⟩
      · simp only [hx, if_false] at hsel ⊢
        subst hsel
        rw [loader_flag_libname] at hflag
        unfold load
        rw [send_andThen, static_local_failed _ _ env _ _ p w hflag hl]
        exact ⟨rfl, rfl⟩

/-! ## One enabled `load_once_and_update` -/

theorem update_one_enabled (b : Build) (env : Env) (handle : Nat) (flag : Bool) (m : Module)
    (p : Plugin) (h : ini_check env m = .value true) :
    (update_one b env handle flag m p).events
      = (try_catch (load_function b env m p) (load_fail_msg m)).events ++
        (try_catch (plugin_update_device env m handle flag (load_function b env m p).state)
          (update_fail_msg m)).events ∧
    (update_one b env handle flag m p).state = (load_function b env m p).state := by
  simp [update_one, load_once_and_update, h, Outcome.andThen, try_catch_raised, try_catch_state,
    plugin_update_device_state]

theorem try_catch_events_sub {σ : Type} (o : Outcome σ) (msg : String) :
    ∃ rest, (try_catch o msg).events = o.events ++ rest := by
  unfold try_catch
  cases hr : o.raised with
  | some w => exact ⟨[Event.message msg w], rfl⟩
  | none => exact ⟨[], by simp⟩

theorem processed_of_focus (b : Build) (env : Env) (handle : Nat) (flag : Bool) (s : State)
    (m : Module) (o : Outcome State) (hen : ini_check env m = .value true)
    (hev : o.events.filter (Event.concerns m)
      = (update_one b env handle flag m (s.plugin m)).events)
    (hst : o.state.plugin m = (update_one b env handle flag m (s.plugin m)).state) :
    Processed b env handle flag s m o := by
  obtain ⟨he, hs⟩ := update_one_enabled b env handle flag m (s.plugin m) hen
  refine ⟨?_, by rw [hst, hs], ?_⟩
  · obtain ⟨rest, hrest⟩ := try_catch_events_sub (load_function b env m (s.plugin m))
      (load_fail_msg m)
    exact ⟨_, by rw [hev, he, hrest, List.append_assoc]⟩
  · intro fn hfn
    rw [hst, hs] at hfn
    have hmem : Event.callback m .update fn handle (if takes_flag m then some flag else none)
        ∈ o.events.filter (Event.concerns m) := by
      rw [hev, he]
      apply List.mem_append_right
      have : (plugin_update_device env m handle flag (load_function b env m (s.plugin m)).state).events
          = [Event.callback m .update fn handle (if takes_flag m then some flag else none)] := by
        simp [plugin_update_device, hfn, call_cb]
      obtain ⟨rest, hrest⟩ := try_catch_events_sub
        (plugin_update_device env m handle flag (load_function b env m (s.plugin m)).state)
        (update_fail_msg m)
      rw [hrest, this]
      simp
    exact (List.mem_filter.mp hmem).1

theorem core_loads_of_event (b : Build) (env : Env) (handle : Nat) (flag : Bool) (s : State)
    (m : Module) (e : Event) (he : e ∈ (update_device b env handle flag s).events)
    (hc : e.concerns m = true) : core_loads b env s := by
  intro hb ha
  subst hb
  cases hr : (core.load_core env s).raised with
  | none => rfl
  | some w =>
    exfalso
    simp only [update_device, ha, hr, List.mem_append, List.mem_singleton] at he
    rcases he with he | he
    · rw [load_core_events env s e he, core_request_concerns] at hc
      exact Bool.false_ne_true hc
    · rw [he, core_message_concerns] at hc
      exact Bool.false_ne_true hc

theorem run_all_events_exact (g : Module → Plugin → Outcome Plugin) :
    ∀ (ms : List Module), ms.Nodup → ∀ (s : State),
      (∀ m ∈ ms, (g m (s.plugin m)).raised = none) →
        (run_all (on_plugin g) ms s).events = ms.flatMap fun m => (g m (s.plugin m)).events := by
  intro ms
  induction ms with
  | nil => intro _ s _; rfl
  | cons x xs ih =>
    intro hnd s hall
    have hx : x ∉ xs := (List.nodup_cons.mp hnd).1
    have hxs : xs.Nodup := (List.nodup_cons.mp hnd).2
    have hr : (on_plugin g x s).raised = none := by
      simpa [on_plugin] using hall x (List.mem_cons_self _ _)
    have hpl : ∀ m ∈ xs, (on_plugin g x s).state.plugin m = s.plugin m := by
      intro m hm
      have hne : m ≠ x := fun h => hx (h ▸ hm)
      simp [on_plugin, Function.update_noteq hne]
    simp only [run_all, Outcome.andThen, hr, List.flatMap_cons]
    rw [ih hxs (on_plugin g x s).state (by
      intro m hm
      rw [hpl m hm]
      exact hall m (List.mem_cons_of_mem _ hm))]
    congr 1
    apply List.flatMap_congr
    intro m hm
    rw [hpl m hm]

theorem run_all_raised_at (g : Module → Plugin → Outcome Plugin) (m : Module)
    (post : List Module) (w : String) :
    ∀ (pre : List Module), (pre ++ m :: post).Nodup → ∀ (s : State),
      (∀ m' ∈ pre, (g m' (s.plugin m')).raised = none) →
      (g m (s.plugin m)).raised = some w →
        (run_all (on_plugin g) (pre ++ m :: post) s).raised = some w ∧
        (run_all (on_plugin g) (pre ++ m :: post) s).events
          = (pre.flatMap fun m' => (g m' (s.plugin m')).events) ++ (g m (s.plugin m)).events := by
  intro pre
  induction pre with
  | nil =>
    intro _ s _ hm
    have hr : (on_plugin g m s).raised = some w := by simpa [on_plugin] using hm
    simp only [List.nil_append, run_all, Outcome.andThen, hr, List.flatMap_nil]
    exact ⟨trivial, rfl⟩
  | cons x xs ih =>
    intro hnd s hall hm
    have hnd' : (x :: (xs ++ m :: post)).Nodup := by simpa using hnd
    have hx : x ∉ xs ++ m :: post := (List.nodup_cons.mp hnd').1
    have hxs : (xs ++ m :: post).Nodup := (List.nodup_cons.mp hnd').2
    have hr : (on_plugin g x s).raised = none := by
      simpa [on_plugin] using hall x (List.mem_cons_self _ _)
    have hpl : ∀ m' ∈ xs ++ m :: post, (on_plugin g x s).state.plugin m' = s.plugin m' := by
      intro m' hm'
      have hne : m' ≠ x := fun h => hx (h ▸ hm')
      simp [on_plugin, Function.update_noteq hne]
    have hmm : m ∈ xs ++ m :: post := by simp
    have h := ih hxs (on_plugin g x s).state (by
      intro m' hm'
      rw [hpl m' (List.mem_append_left _ hm')]
      exact hall m' (List.mem_cons_of_mem _ hm')) (by rw [hpl m hmm]; exact hm)
    rw [List.cons_append]
    simp only [run_all, Outcome.andThen, hr, List.flatMap_cons]
    refine ⟨h.1, ?_⟩
    have hfm : (xs.flatMap fun m' => (g m' ((on_plugin g x s).state.plugin m')).events)
        = xs.flatMap fun m' => (g m' (s.plugin m')).events :=
      List.flatMap_congr fun m' hm' => by rw [hpl m' (List.mem_append_left _ hm')]
    rw [h.2, hpl m hmm, hfm]
    simp [on_plugin, List.append_assoc]

theorem update_one_request_inv (b : Build) (env : Env) (handle : Nat) (flag : Bool) (m : Module)
    (p : Plugin) (n : String)
    (h : Event.load_request n ∈ (update_one b env handle flag m p).events) :
    ini_check env m = .value true ∧ Event.load_request n ∈ (load_function b env m p).events := by
  cases hi : ini_check env m with
  | raise w => simp [update_one, load_once_and_update, hi] at h
  | value en =>
    cases en with
    | false => simp [update_one, load_once_and_update, hi, Outcome.ret] at h
    | true =>
      refine ⟨rfl, ?_⟩
      rw [(update_one_enabled b env handle flag m p hi).1, List.mem_append] at h
      rcases h with h | h
      · rcases try_catch_events _ _ _ h with h1 | ⟨w, h1⟩
        · exact h1
        · cases h1
      · rcases try_catch_events _ _ _ h with h1 | ⟨w, h1⟩
        · unfold plugin_update_device at h1
          cases hc : (load_function b env m p).state.update_device_cb with
          | none => simp [hc, Outcome.ret] at h1
          | some fn => simp [hc, call_cb] at h1
        · cases h1

theorem update_one_load_events (b : Build) (env : Env) (handle : Nat) (flag : Bool) (m : Module)
    (p : Plugin) (hen : ini_check env m = .value true) :
    ∀ e ∈ (load_function b env m p).events, e ∈ (update_one b env handle flag m p).events := by
  intro e he
  rw [(update_one_enabled b env handle flag m p hen).1]
  obtain ⟨rest, hrest⟩ := try_catch_events_sub (load_function b env m p) (load_fail_msg m)
  rw [hrest]
  simp [he]

theorem load_function_symbols (b : Build) (env : Env) (m : Module) (p : Plugin) (n : String)
    (hd : Nat) (hsel : selected_library b env m = some n) (hflag : loader_flag m n p = false)
    (hl : env.load_library n = .value hd) :
    ∀ k ∈ registered_slots b m, Event.dlsym hd (symbol m k) ∈ (load_function b env m p).events := by
  intro k hk
  have hmem : Event.dlsym hd (symbol m k) ∈ Event.load_request n ::
      (registered_slots b m).map (fun k => Event.dlsym hd (symbol m k)) :=
    List.mem_cons_of_mem _ (List.mem_map_of_mem _ hk)
  rw [load_function_unfold]
  unfold selected_library at hsel
  cases hu : uses_mode b m with
  | false =>
    simp only [hu, Bool.false_eq_true, if_false, Option.some.injEq] at hsel ⊢
    subst hsel
    rw [loader_flag_libname] at hflag
    unfold load
    rw [static_local_loaded _ _ b env m _ p hd hflag hl]
    exact hmem
  | true =>
    simp only [hu, if_true] at hsel ⊢
    unfold load_by_mode
    cases hm : env.get_xdp_mode with
    | raise w => simp [hm] at hsel
    | value mode =>
      simp only [hm, Option.some.injEq] at hsel ⊢
      by_cases hx : mode = "xdna"
      · simp only [hx, if_true] at hsel ⊢
        subst hsel
        rw [loader_flag_xdna] at hflag
        unfold xdna_load
        rw [send_andThen, static_local_loaded _ _ b env m _ p hd hflag hl]
        exact List.mem_cons_of_mem _ hmem
      · simp only [hx, if_false] at hsel ⊢
        subst hsel
        rw [loader_flag_libname] at hflag
        unfold load
        rw [send_andThen, static_local_loaded _ _ b env m _ p hd hflag hl]
        exact List.mem_cons_of_mem _ hmem

theorem selected_library_variant (b : Build) (env : Env) (m : Module) (mode : String)
    (hm : m = .aie_profile ∨ m = .aie_trace) (hmode : env.get_xdp_mode = .value mode) :
    selected_library b env m
      = some (if b = .ve2 then variant_library m mode else libname m) := by
  rcases hm with hm | hm <;> subst hm <;> cases b <;>
    simp [selected_library, uses_mode, hmode, variant_library, xdna_libname, libname]

theorem concerns_of_libnames (m : Module) (name : String) (h : name ∈ libnames m) :
    (Event.load_request name).concerns m = true := by
  simp [Event.concerns, h]

/-! ## A plugin next to the others -/

theorem update_device_returns (b : Build) (env : Env) (handle : Nat) (flag : Bool) (s : State)
    (hcfg : env.config_returns) : (update_device b env handle flag s).raised = none := by
  have htot : ∀ s', (run_all (on_plugin (update_one b env handle flag)) (update_order b) s').raised
      = none := by
    intro s'
    apply run_all_total _ _ (update_order_nodup b)
    intro m _
    rw [update_one_raised]
    cases hi : ini_check env m with
    | raise w => exact absurd hi (ini_check_returns env hcfg m w)
    | value en => rfl
  cases b with
  | ve2 => exact htot s
  | generic => exact htot s
  | client win32 =>
    cases win32 with
    | false => exact htot s
    | true =>
      simp only [update_device]
      cases ha : any_config env core_dependents with
      | raise w => exact absurd ha (any_config_returns env hcfg _ w)
      | value en =>
        cases en with
        | false => exact htot s
        | true =>
          simp only []
          cases hr : (core.load_core env s).raised with
          | some w => rfl
          | none => simp only [Outcome.andThen, hr]; exact htot _

theorem run_focus (b : Build) (env : Env) (handle : Nat) (flag : Bool) (s : State)
    (hcfg : env.config_returns) (m : Module) :
    (run_all (on_plugin (update_one b env handle flag)) (update_order b) s).events.filter
        (Event.concerns m)
      = (if m ∈ update_order b then (update_one b env handle flag m (s.plugin m)).events else []) ∧
    (run_all (on_plugin (update_one b env handle flag)) (update_order b) s).state.plugin m
      = (if m ∈ update_order b then (update_one b env handle flag m (s.plugin m)).state
         else s.plugin m) := by
  have htot : (run_all (on_plugin (update_one b env handle flag)) (update_order b) s).raised
      = none := by
    apply run_all_total _ _ (update_order_nodup b)
    intro m _
    rw [update_one_raised]
    cases hi : ini_check env m with
    | raise w => exact absurd hi (ini_check_returns env hcfg m w)
    | value en => rfl
  by_cases hm : m ∈ update_order b
  · have h := run_all_returned _ (update_one_local b env handle flag) _ (update_order_nodup b) s
      htot m hm
    simp only [hm, if_true]
    exact h.2
  · rcases run_all_cases _ (update_one_local b env handle flag) _ (update_order_nodup b) s m
      with h | ⟨h, _⟩
    · simp only [hm, if_false]
      exact h
    · exact absurd h hm

theorem disable_config_returns (env : Env) (m : Module) (hcfg : env.config_returns) :
    (env.disable m).config_returns := by
  intro m' w
  by_cases h : m' = m
  · subst h; simp [Env.disable]
  · simp only [Env.disable, Function.update_noteq h]
    exact hcfg m' w

theorem ini_check_disable (env : Env) (m m' : Module) (h : m' ≠ m) :
    ini_check (env.disable m) m' = ini_check env m' := by
  cases m' <;> simp only [ini_check, Env.disable, Function.update_noteq h]

theorem update_one_disable (b : Build) (env : Env) (handle : Nat) (flag : Bool) (m m' : Module)
    (p : Plugin) (h : m' ≠ m) :
    update_one b (env.disable m) handle flag m' p = update_one b env handle flag m' p := by
  have hreg : register_callbacks b (env.disable m) m' = register_callbacks b env m' := by
    funext hd q
    exact register_slots_disable env m m' hd _ q
  have hl' : load_function b (env.disable m) m' = load_function b env m' := by
    funext q
    have hload : load b (env.disable m) m' = load b env m' := by
      funext r
      simp only [load, hreg]
      rfl
    have hxdna : xdna_load b (env.disable m) m' = xdna_load b env m' := by
      funext r
      simp only [xdna_load, hreg]
      rfl
    rw [load_function_unfold, load_function_unfold, hload, hxdna]
    rfl
  unfold update_one
  rw [ini_check_disable env m m' h, hl']
  rfl

theorem any_config_false (env : Env) :
    ∀ (ms : List Module), any_config env ms = .value false →
      ∀ x ∈ ms, env.config x = .value false := by
  intro ms
  induction ms with
  | nil => intro _ x hx; simp at hx
  | cons y ys ih =>
    intro h x hx
    simp only [any_config] at h
    cases hc : env.config y with
    | raise w => simp [hc] at h
    | value en =>
      cases en with
      | true => simp [hc] at h
      | false =>
        simp only [hc] at h
        rcases List.mem_cons.mp hx with hxy | hxy
        · rw [hxy]; exact hc
        · exact ih h x hxy

theorem any_config_disable (env : Env) (m : Module) :
    ∀ (ms : List Module), any_config env ms = .value false →
      any_config (env.disable m) ms = .value false := by
  intro ms
  induction ms with
  | nil => intro _; rfl
  | cons y ys ih =>
    intro h
    simp only [any_config] at h ⊢
    cases hc : env.config y with
    | raise w => simp [hc] at h
    | value en =>
      cases en with
      | true => simp [hc] at h
      | false =>
        simp only [hc] at h
        have hy : (env.disable m).config y = .value false := by
          by_cases hym : y = m
          · subst hym; simp [Env.disable]
          · simp only [Env.disable, Function.update_noteq hym, hc]
        rw [hy]
        exact ih h

theorem run_all_disabled (b : Build) (env : Env) (handle : Nat) (flag : Bool) (s : State)
    (hcfg : env.config_returns)
    (hoff : ∀ x ∈ update_order b, ini_check env x = .value false) (m : Module) :
    (run_all (on_plugin (update_one b env handle flag)) (update_order b) s).events.filter
        (Event.concerns m) = [] ∧
    (run_all (on_plugin (update_one b env handle flag)) (update_order b) s).state.plugin m
      = s.plugin m := by
  obtain ⟨h1, h2⟩ := run_focus b env handle flag s hcfg m
  by_cases hm : m ∈ update_order b
  · simp only [hm, if_true, update_one_disabled b env handle flag m _ (hoff m hm)] at h1 h2
    exact ⟨h1, h2⟩
  · simp only [hm, if_false] at h1 h2
    exact ⟨h1, h2⟩

theorem update_device_disable (b : Build) (env : Env) (handle : Nat) (flag : Bool) (s : State)
    (m m' : Module) (hcfg : env.config_returns) (hne : m' ≠ m) :
    (update_device b env handle flag s).events.filter (Event.concerns m')
      = (update_device b (env.disable m) handle flag s).events.filter (Event.concerns m') ∧
    (update_device b env handle flag s).state.plugin m'
      = (update_device b (env.disable m) handle flag s).state.plugin m' := by
  have hcfg' := disable_config_returns env m hcfg
  have hK : ∀ t t' : State, t.plugin = t'.plugin →
      (run_all (on_plugin (update_one b env handle flag)) (update_order b) t).events.filter
          (Event.concerns m')
        = (run_all (on_plugin (update_one b (env.disable m) handle flag))
            (update_order b) t').events.filter (Event.concerns m') ∧
      (run_all (on_plugin (update_one b env handle flag)) (update_order b) t).state.plugin m'
        = (run_all (on_plugin (update_one b (env.disable m) handle flag))
            (update_order b) t').state.plugin m' := by
    intro t t' htt
    obtain ⟨a1, a2⟩ := run_focus b env handle flag t hcfg m'
    obtain ⟨b1, b2⟩ := run_focus b (env.disable m) handle flag t' hcfg' m'
    rw [a1, a2, b1, b2, update_one_disable b env handle flag m m' _ hne, htt]
    exact ⟨rfl, rfl⟩
  cases b with
  | ve2 => exact hK s s rfl
  | generic => exact hK s s rfl
  | client win32 =>
    cases win32 with
    | false => exact hK s s rfl
    | true =>
      have hcore : core.load_core (env.disable m) s = core.load_core env s := rfl
      simp only [update_device, hcore]
      cases ha : any_config env core_dependents with
      | raise w => exact absurd ha (any_config_returns env hcfg _ w)
      | value en =>
        cases en with
        | false =>
          rw [any_config_disable env m _ ha]
          exact hK s s rfl
        | true =>
          cases ha' : any_config (env.disable m) core_dependents with
          | raise w => exact absurd ha' (any_config_returns _ hcfg' _ w)
          | value en' =>
            cases en' with
            | true =>
              simp only []
              cases hr : (core.load_core env s).raised with
              | some w => exact ⟨rfl, rfl⟩
              | none =>
                simp only [Outcome.andThen, hr, List.filter_append]
                obtain ⟨k1, k2⟩ := hK (core.load_core env s).state (core.load_core env s).state rfl
                rw [k1, k2]
                exact ⟨rfl, rfl⟩
            | false =>
              simp only []
              have hoff : ∀ x ∈ update_order (.client true),
                  ini_check (env.disable m) x = .value false := by
                intro x hx
                have hx' : x ∈ core_dependents := by
                  simp only [update_order, List.mem_cons, List.mem_singleton,
                    List.not_mem_nil, or_false] at hx
                  rcases hx with h | h | h | h | h | h <;> subst h <;>
                    simp [core_dependents]
                have hcx := any_config_false _ _ ha' x hx'
                simp only [update_order, List.mem_cons, List.mem_singleton,
                  List.not_mem_nil, or_false] at hx
                rcases hx with h | h | h | h | h | h <;> subst h <;>
                  simpa [ini_check] using hcx
              obtain ⟨d1, d2⟩ := run_all_disabled (.client true) (env.disable m) handle flag s
                hcfg' hoff m'
              rw [d1, d2]
              cases hr : (core.load_core env s).raised with
              | some w =>
                simp only [List.filter_append, load_core_filter, load_core_plugin,
                  List.nil_append]
                simp [core_message_concerns]
              | none =>
                simp only [Outcome.andThen, hr, List.filter_append, load_core_filter,
                  List.nil_append]
                obtain ⟨k1, k2⟩ := hK (core.load_core env s).state s (load_core_plugin env s)
                rw [k1, k2, d1, d2]
                exact ⟨rfl, rfl⟩

theorem module_loader_is_load (b : Build) (env : Env) (m : Module) (name : String) (p : Plugin) :
    ∀ e ∈ (module_loader env name (register_callbacks b env m) p).events, e.is_load = true := by
  intro e he
  unfold module_loader at he
  cases hl : env.load_library name with
  | raise w =>
    simp [hl] at he
    rw [he]; rfl
  | value handle =>
    simp [hl, register_callbacks, register_slots_events] at he
    rcases he with he | ⟨k, _, he⟩
    · rw [he]; rfl
    · rw [← he]; rfl

theorem load_function_events_kind (b : Build) (env : Env) (m : Module) (p : Plugin) :
    ∀ e ∈ (load_function b env m p).events,
      e.is_load = true ∨ e = Event.message (xdna_mode_msg m) "" ∨
        e = Event.message (zocl_mode_msg m) "" := by
  intro e he
  rw [load_function_unfold] at he
  cases hu : uses_mode b m with
  | false =>
    simp only [hu, Bool.false_eq_true, if_false] at he
    exact Or.inl (module_loader_is_load b env m _ p e (static_local_events_subset _ _ _ _ e he))
  | true =>
    simp only [hu, if_true] at he
    unfold load_by_mode at he
    cases hm : env.get_xdp_mode with
    | raise w => simp [hm] at he
    | value mode =>
      simp only [hm] at he
      by_cases hx : mode = "xdna"
      · simp only [hx, if_true, send_andThen, List.mem_cons] at he
        rcases he with he | he
        · exact Or.inr (Or.inl he)
        · exact Or.inl (module_loader_is_load b env m _ p e
            (static_local_events_subset _ _ _ _ e he))
      · simp only [hx, if_false, send_andThen, List.mem_cons] at he
        rcases he with he | he
        · exact Or.inr (Or.inr he)
        · exact Or.inl (module_loader_is_load b env m _ p e
            (static_local_events_subset _ _ _ _ e he))

theorem mode_msg_ne_fail (m : Module) :
    xdna_mode_msg m ≠ load_fail_msg m ∧ xdna_mode_msg m ≠ update_fail_msg m ∧
    zocl_mode_msg m ≠ load_fail_msg m ∧ zocl_mode_msg m ≠ update_fail_msg m := by
  cases m <;> decide

/-! ## The events of a whole call -/

theorem update_device_events_exact (b : Build) (env : Env) (handle : Nat) (flag : Bool)
    (s : State) (hcfg : env.config_returns) (hcore : core_loads b env s) :
    (update_device b env handle flag s).events
      = (if b = .client true ∧ any_config env core_dependents = .value true
          then (core.load_core env s).events else []) ++
        (update_order b).flatMap fun m => (update_one b env handle flag m (s.plugin m)).events := by
  have hrun : ∀ s', s'.plugin = s.plugin →
      (run_all (on_plugin (update_one b env handle flag)) (update_order b) s').events
        = (update_order b).flatMap fun m =>
            (update_one b env handle flag m (s.plugin m)).events := by
    intro s' hs'
    rw [run_all_events_exact _ _ (update_order_nodup b) s', hs']
    intro m _
    rw [update_one_raised]
    cases hi : ini_check env m with
    | raise w => exact absurd hi (ini_check_returns env hcfg m w)
    | value en => rfl
  cases b with
  | ve2 => simpa [update_device] using hrun s rfl
  | generic => simpa [update_device] using hrun s rfl
  | client win32 =>
    cases win32 with
    | false => simpa [update_device] using hrun s rfl
    | true =>
      simp only [update_device]
      cases ha : any_config env core_dependents with
      | raise w => exact absurd ha (any_config_returns env hcfg _ w)
      | value en =>
        cases en with
        | false => simpa using hrun s rfl
        | true =>
          have hr : (core.load_core env s).raised = none := hcore rfl ha
          simp only [hr, Outcome.andThen, true_and, if_true]
          rw [hrun _ (load_core_plugin env s)]

/-! ## Reachable states and failed loads -/

/-- C1: a plugin whose enablement check is false is left alone by `update_device`. With
`ini_check env m = .value false`, no event of the call concerns `m` (no load request
for one of its libraries, no resolution of its symbols, no call through its slots, no
message of its own), and the globals of `m` are unchanged. -/
theorem disabled_plugin_untouched (b : Build) (env : Env) (handle : Nat) (flag : Bool)
    (s : State) (m : Module) (h : ini_check env m = .value false) :
    (∀ e ∈ (update_device b env handle flag s).events, e.concerns m = false) ∧
    (∀ name ∈ libnames m, Event.load_request name ∉ (update_device b env handle flag s).events) ∧
    (∀ k fn hd fl,
      Event.callback m k fn hd fl ∉ (update_device b env handle flag s).events) ∧
    (∀ head ∈ message_heads m, ∀ w,
      Event.message head w ∉ (update_device b env handle flag s).events) ∧
    (update_device b env handle flag s).state.plugin m = s.plugin m := by
  have hcases := update_device_cases b env handle flag s m
  rw [update_one_disabled b env handle flag m _ h] at hcases
  have hnil : (update_device b env handle flag s).events.filter (Event.concerns m) = [] := by
    rcases hcases with ⟨h1, _⟩ | ⟨_, h1, _⟩
    · exact h1
    · exact h1
  have hpl : (update_device b env handle flag s).state.plugin m = s.plugin m := by
    rcases hcases with ⟨_, h2⟩ | ⟨_, _, h2⟩
    · exact h2
    · exact h2
  have hno : ∀ e ∈ (update_device b env handle flag s).events, e.concerns m = false := by
    intro e he
    have := (List.filter_eq_nil_iff.mp hnil) e he
    simpa using this
  refine ⟨hno, ?_, ?_, ?_, hpl⟩
  · intro name hname hmem
    have := hno _ hmem
    simp [Event.concerns, hname] at this
  · intro k fn hd fl hmem
    have := hno _ hmem
    simp [Event.concerns] at this
  · intro head hhead w hmem
    have := hno _ hmem
    simp [Event.concerns, hhead] at this

/-- Witness of C1: AIE profile is disabled in the sample environment. -/
theorem disabled_plugin_untouched_witness :
    ini_check Sample.trace_only .aie_profile = .value false ∧
    (update_device .ve2 Sample.trace_only 5 true State.initial).state.plugin .aie_profile
      = State.initial.plugin .aie_profile :=
  ⟨by decide,
    (disabled_plugin_untouched .ve2 Sample.trace_only 5 true State.initial .aie_profile
      (by decide)).2.2.2.2⟩

/-- C6, counterexample: an enabled plugin with a bound flush slot is not flushed when an
earlier flush callback throws. On the VE2 build AIE trace and AIE profile are enabled
and bound by a first `update_device`; in `finish_flush_device` the end callback of AIE
trace throws, the exception leaves the call, and the end callback of AIE profile
(callable 4), owed one call, is called zero times. -/
theorem flush_skipped_after_exception :
    ini_check Sample.trace_flush_throws .aie_profile = .value true ∧
    ((update_device .ve2 Sample.trace_flush_throws 5 true State.initial).state.plugin
        .aie_profile).end_cb = some 4 ∧
    Module.aie_profile ∈ flush_order .ve2 ∧
    expected_flush Sample.trace_flush_throws 5 .aie_profile
        ((update_device .ve2 Sample.trace_flush_throws 5 true State.initial).state.plugin
          .aie_profile)
      = [Event.callback .aie_profile .flush 4 5 none] ∧
    (finish_flush_device .ve2 Sample.trace_flush_throws 5
      (update_device .ve2 Sample.trace_flush_throws 5 true State.initial).state).events.filter
        (Event.concerns .aie_profile) = [] := by
  decide

/-- C6, amended: `finish_flush_device` from any state (any prior history of calls, none
included). It changes no global; every event is a call of some end or flush callback
with the handle, so no load request and no symbol resolution is issued; the events
concerning a plugin `m` of the flush order are never more than one, and they are either
exactly `expected_flush` (one call of the slot with the handle if the plugin is enabled
and the slot bound, none otherwise) or none at all because an exception ended the call
before `m` was reached; when the call returns they are exactly `expected_flush`; and the
call does return when no getter and no callback throws. -/
theorem finalize_flushes_once (b : Build) (env : Env) (handle : Nat) (s : State) (m : Module)
    (hm : m ∈ flush_order b) :
    (finish_flush_device b env handle s).state = s ∧
    (∀ e ∈ (finish_flush_device b env handle s).events,
      ∃ m' fn, e = Event.callback m' .flush fn handle none) ∧
    ((finish_flush_device b env handle s).events.filter (Event.concerns m)).length ≤ 1 ∧
    ((finish_flush_device b env handle s).events.filter (Event.concerns m)
        = expected_flush env handle m (s.plugin m) ∨
      ((finish_flush_device b env handle s).raised ≠ none ∧
        (finish_flush_device b env handle s).events.filter (Event.concerns m) = [])) ∧
    ((finish_flush_device b env handle s).raised = none →
      (finish_flush_device b env handle s).events.filter (Event.concerns m)
        = expected_flush env handle m (s.plugin m)) ∧
    (env.config_returns → (∀ fn, env.invoke fn handle none = none) →
      (finish_flush_device b env handle s).raised = none) := by
  have hretd : (finish_flush_device b env handle s).raised = none →
      (finish_flush_device b env handle s).events.filter (Event.concerns m)
        = expected_flush env handle m (s.plugin m) := by
    intro hret
    have h := run_all_returned _ (flush_one_local env handle) _ (flush_order_nodup b) s hret m hm
    rw [← flush_one_events]
    exact h.2.1
  refine ⟨run_all_state_eq _ (flush_one_state env handle) _ s, ?_, ?_, ?_, hretd, ?_⟩
  · intro e he
    obtain ⟨m', _, s', h⟩ := run_all_events_mem _ _ _ e he
    simp only [on_plugin, flush_one_events] at h
    obtain ⟨fn, hfn⟩ := expected_flush_mem env handle m' _ e h
    exact ⟨m', fn, hfn⟩
  · have h := run_all_cases _ (flush_one_local env handle) _ (flush_order_nodup b) s m
    rcases h with ⟨h1, _⟩ | ⟨_, h1, _⟩
    · simp [finish_flush_device, h1]
    · simp only [finish_flush_device, h1, flush_one_events]
      exact expected_flush_length env handle m _
  · by_cases hret : (finish_flush_device b env handle s).raised = none
    · exact Or.inl (hretd hret)
    · have h := run_all_cases _ (flush_one_local env handle) _ (flush_order_nodup b) s m
      rcases h with ⟨h1, _⟩ | ⟨_, h1, _⟩
      · exact Or.inr ⟨hret, h1⟩
      · left
        simp only [finish_flush_device, h1, flush_one_events]
  · intro hcfg hinv
    apply run_all_total _ _ (flush_order_nodup b)
    intro m' _
    exact flush_one_raised_none env handle m' _ hcfg hinv

/-- Witness of C6, amended: AIE trace is in the flush order of the VE2 build. -/
theorem finalize_flushes_once_witness :
    Module.aie_trace ∈ flush_order .ve2 ∧
    (finish_flush_device .ve2 Sample.trace_only 5
      (update_device .ve2 Sample.trace_only 5 true State.initial).state).state
      = (update_device .ve2 Sample.trace_only 5 true State.initial).state :=
  ⟨by decide,
    (finalize_flushes_once .ve2 Sample.trace_only 5
      (update_device .ve2 Sample.trace_only 5 true State.initial).state .aie_trace
      (by decide)).1⟩

/-- C2, counterexample: an enablement check that throws after a caught load failure ends
the call. On the VE2 build ML timeline and AIE trace are enabled and ML timeline is
processed first: its library is missing, the load step throws and the failure message
is sent. The getter of AIE halt, the next plugin, then throws outside any handler: the
exception leaves `update_device`, and AIE trace is neither loaded nor called. -/
theorem load_failure_then_getter_exception :
    ini_check Sample.halt_getter_throws .ml_timeline = .value true ∧
    ini_check Sample.halt_getter_throws .aie_trace = .value true ∧
    update_order .ve2
      = [.ml_timeline, .aie_halt, .aie_trace, .aie_debug, .aie_status, .aie_profile] ∧
    (update_device .ve2 Sample.halt_getter_throws 5 true State.initial).events
      = [Event.load_request "xdp_ml_timeline_plugin",
         Event.message (load_fail_msg .ml_timeline) "library not found"] ∧
    (update_device .ve2 Sample.halt_getter_throws 5 true State.initial).raised
      = some "bad value" ∧
    (update_device .ve2 Sample.halt_getter_throws 5 true State.initial).state.plugin .aie_trace
      = Plugin.initial := by
  decide

/-- C2, amended: a load failure does not stop the plugins that follow, as long as no
configuration getter throws. In a call of `update_device` in which no configuration
getter throws, if the load step of plugin `A` threw (its load failure message was
sent), then the call returns normally and every enabled plugin `B` of the build went
through its `load_once_and_update`: its load function was run and, if its update slot
is bound, its update callback was called with the handle (and the flag, for the
two-argument callbacks) of the call. -/
theorem load_failure_isolated (b : Build) (env : Env) (handle : Nat) (flag : Bool) (s : State)
    (A B : Module) (w : String) (hcfg : env.config_returns)
    (hA : Event.message (load_fail_msg A) w ∈ (update_device b env handle flag s).events)
    (hB : B ∈ update_order b) (hen : ini_check env B = .value true) :
    (update_device b env handle flag s).raised = none ∧
    Processed b env handle flag s B (update_device b env handle flag s) := by
  have hcore : core_loads b env s :=
    core_loads_of_event b env handle flag s A _ hA (concerns_load_fail A w)
  obtain ⟨hret, hall⟩ := update_device_reached b env handle flag s hcfg hcore
  exact ⟨hret, processed_of_focus b env handle flag s B _ hen (hall B hB).1 (hall B hB).2⟩

/-- Witness of C2, amended: the AIE trace library is missing, AIE profile comes after AIE trace
in the generic build and is still loaded and called. -/
theorem load_failure_isolated_witness :
    Sample.trace_missing.config_returns ∧
    Event.message (load_fail_msg .aie_trace) "library not found"
      ∈ (update_device .generic Sample.trace_missing 5 true State.initial).events ∧
    Module.aie_profile ∈ update_order .generic ∧
    ini_check Sample.trace_missing .aie_profile = .value true ∧
    Processed .generic Sample.trace_missing 5 true State.initial .aie_profile
      (update_device .generic Sample.trace_missing 5 true State.initial) :=
  have hcfg : Sample.trace_missing.config_returns := by
    intro m w; simp [Sample.trace_missing]
  ⟨hcfg, by decide, by decide, by decide,
    (load_failure_isolated .generic Sample.trace_missing 5 true State.initial .aie_trace
      .aie_profile "library not found" hcfg (by decide) (by decide) (by decide)).2⟩

/-- C8, counterexample: an enablement check that throws is not absorbed, and a failed
load of the XDP core library ends the call before any plugin is processed. In the
generic build the getter of PL deadlock detection throws: the exception leaves
`update_device` and AIE trace, which is enabled, is neither loaded nor called. In the
Windows client build the core library is missing: the call returns after the failure
message and AIE trace, which is enabled, is neither loaded nor called. -/
theorem activate_not_always_isolating :
    (ini_check Sample.getter_throws .aie_trace = .value true ∧
      (update_device .generic Sample.getter_throws 5 true State.initial).raised
        = some "bad value" ∧
      (update_device .generic Sample.getter_throws 5 true State.initial).events = []) ∧
    (ini_check Sample.core_missing .aie_trace = .value true ∧
      (update_device (.client true) Sample.core_missing 5 true State.initial).raised = none ∧
      (update_device (.client true) Sample.core_missing 5 true State.initial).events
        = [Event.load_request "xdp_core",
           Event.message core_fail_msg "library not found"]) := by
  decide

/-- C8, amended: `update_device` absorbs every failure of a load step and of an update
callback. When no configuration getter throws and the explicit load of the XDP core
library (Windows client build, some dependent plugin enabled) does not throw, the call
returns normally and every enabled plugin of the build goes through its
`load_once_and_update`, whatever the loader and the callbacks of any plugin do. -/
theorem activate_isolates_load_and_update_failures (b : Build) (env : Env) (handle : Nat)
    (flag : Bool) (s : State) (hcfg : env.config_returns) (hcore : core_loads b env s) :
    (update_device b env handle flag s).raised = none ∧
    ∀ m ∈ update_order b, ini_check env m = .value true →
      Processed b env handle flag s m (update_device b env handle flag s) := by
  obtain ⟨hret, hall⟩ := update_device_reached b env handle flag s hcfg hcore
  exact ⟨hret, fun m hm hen =>
    processed_of_focus b env handle flag s m _ hen (hall m hm).1 (hall m hm).2⟩

/-- Witness of C8, amended: the Windows client build with every library present. -/
theorem activate_isolates_load_and_update_failures_witness :
    Sample.trace_only.config_returns ∧ core_loads (.client true) Sample.trace_only State.initial ∧
    (update_device (.client true) Sample.trace_only 5 true State.initial).raised = none :=
  have hcfg : Sample.trace_only.config_returns := by
    intro m w; simp [Sample.trace_only]
  have hcore : core_loads (.client true) Sample.trace_only State.initial := by
    intro _ _; decide
  ⟨hcfg, hcore,
    (activate_isolates_load_and_update_failures (.client true) Sample.trace_only 5 true
      State.initial hcfg hcore).1⟩

/-- C4, counterexample: a load failure is not remembered. In the generic build the AIE
trace library is missing during two calls of `update_device`: each call issues a load
request for it and sends the failure message. During a third call the library is
present: it is loaded, the slots are bound and the update callback is called. -/
theorem load_failure_not_permanent :
    (run_calls .generic
        [.activate Sample.trace_missing 5 true, .activate Sample.trace_missing 5 true,
         .activate Sample.trace_only 5 true] State.initial).map
      (fun o => (o.events.filter (Event.concerns .aie_trace), o.state.plugin .aie_trace))
    = [([Event.load_request "xdp_aie_trace_plugin",
         Event.message (load_fail_msg .aie_trace) "library not found"],
        ⟨false, false, none, none⟩),
       ([Event.load_request "xdp_aie_trace_plugin",
         Event.message (load_fail_msg .aie_trace) "library not found"],
        ⟨false, false, none, none⟩),
       ([Event.load_request "xdp_aie_trace_plugin",
         Event.dlsym 7 "finishFlushAIEDevice", Event.dlsym 7 "updateAIEDevice",
         Event.callback .aie_trace .update 1 5 (some true)],
        ⟨true, false, some 1, some 2⟩)] := by
  decide

/-- C4, amended: a failed load attempt leaves no trace in the globals and is repeated.
If a call of `update_device` requested a library of plugin `m` and the loader threw,
then the globals of `m` are what they were before the call, the static loader for that
library is still not initialised, and the next call of `update_device` in which `m` is
enabled and selects the same library requests it again (no getter throwing and the XDP
core library loading, so that the plugin is reached). -/
theorem failed_load_is_retried (b : Build) (env1 env2 : Env) (h1 h2 : Nat) (f1 f2 : Bool)
    (s : State) (m : Module) (name w : String)
    (hname : name ∈ libnames m)
    (hreq : Event.load_request name ∈ (update_device b env1 h1 f1 s).events)
    (hfail : env1.load_library name = .raise w)
    (hcfg : env2.config_returns)
    (hcore : core_loads b env2 (update_device b env1 h1 f1 s).state)
    (hen : ini_check env2 m = .value true)
    (hsel : selected_library b env2 m = some name) :
    (update_device b env1 h1 f1 s).state.plugin m = s.plugin m ∧
    loader_flag m name ((update_device b env1 h1 f1 s).state.plugin m) = false ∧
    Event.load_request name
      ∈ (update_device b env2 h2 f2 (update_device b env1 h1 f1 s).state).events := by
  have hc := concerns_of_libnames m name hname
  have hfst : (update_device b env1 h1 f1 s).state.plugin m = s.plugin m ∧
      loader_flag m name (s.plugin m) = false ∧ m ∈ update_order b := by
    rcases update_device_cases b env1 h1 f1 s m with ⟨e1, _⟩ | ⟨hm, e1, e2⟩
    · exact absurd hc ((List.filter_eq_nil_iff.mp e1) _ hreq)
    · have hin : Event.load_request name ∈ (update_one b env1 h1 f1 m (s.plugin m)).events := by
        rw [← e1]
        exact List.mem_filter.mpr ⟨hreq, hc⟩
      obtain ⟨hen1, hl⟩ := update_one_request_inv b env1 h1 f1 m _ name hin
      obtain ⟨hs1, hflag⟩ := load_function_request_inv b env1 m _ name hl
      obtain ⟨hst, _⟩ := load_function_failed b env1 m _ name w hs1 hflag hfail
      exact ⟨by rw [e2, (update_one_enabled b env1 h1 f1 m _ hen1).2, hst], hflag, hm⟩
  obtain ⟨hpl, hflag, hm⟩ := hfst
  refine ⟨hpl, by rw [hpl]; exact hflag, ?_⟩
  obtain ⟨_, hall⟩ := update_device_reached b env2 h2 f2 _ hcfg hcore
  have hin : Event.load_request name
      ∈ (update_device b env2 h2 f2 (update_device b env1 h1 f1 s).state).events.filter
        (Event.concerns m) := by
    rw [(hall m hm).1]
    apply update_one_load_events b env2 h2 f2 m _ hen
    apply load_function_request b env2 m _ name hsel
    rw [hpl]; exact hflag
  exact (List.mem_filter.mp hin).1

/-- Witness of C4, amended: the missing AIE trace library is requested again by the
second call. -/
theorem failed_load_is_retried_witness :
    Event.load_request "xdp_aie_trace_plugin"
      ∈ (update_device .generic Sample.trace_missing 5 true State.initial).events ∧
    Sample.trace_missing.load_library "xdp_aie_trace_plugin" = .raise "library not found" ∧
    Event.load_request "xdp_aie_trace_plugin"
      ∈ (update_device .generic Sample.trace_missing 6 false
          (update_device .generic Sample.trace_missing 5 true State.initial).state).events :=
  ⟨by decide, by decide,
    (failed_load_is_retried .generic Sample.trace_missing Sample.trace_missing 5 6 true false
      State.initial .aie_trace "xdp_aie_trace_plugin" "library not found" (by decide) (by decide)
      (by decide) (by intro m w; simp [Sample.trace_missing]) (by intro h; cases h) (by decide)
      (by decide)).2.2⟩

/-- C7, counterexample: outside the VE2 build the mode string selects nothing. In the
generic build with AIE profile enabled and mode "xdna", `update_device` requests the
default library "xdp_aie_profile_plugin" and never the xdna one. -/
theorem mode_ignored_outside_ve2 :
    (Sample.profile_in_mode "xdna").get_xdp_mode = .value "xdna" ∧
    ini_check (Sample.profile_in_mode "xdna") .aie_profile = .value true ∧
    (update_device .generic (Sample.profile_in_mode "xdna") 5 true State.initial).events
      = [Event.load_request "xdp_aie_profile_plugin",
         Event.dlsym 8 "updateAIECtrDevice", Event.dlsym 8 "endAIECtrPoll",
         Event.callback .aie_profile .update 81 5 (some true)] := by
  decide

/-- C7, amended: variant selection belongs to the VE2 build. For AIE profile and AIE
trace with mode string `mode`, every load request of `update_device` for the plugin
names `variant_library m mode` on VE2 (the xdna library exactly when the mode is
"xdna") and the default library `libname m` on the other builds. Where the plugin is
enabled and reached and that library is not loaded yet, the request is issued, and when
the loader succeeds the two symbols of the plugin are resolved against its handle. -/
theorem variant_selection (b : Build) (env : Env) (handle : Nat) (flag : Bool) (s : State)
    (m : Module) (mode : String) (hm : m = .aie_profile ∨ m = .aie_trace)
    (hmode : env.get_xdp_mode = .value mode) :
    (∀ name, (Event.load_request name).concerns m = true →
      Event.load_request name ∈ (update_device b env handle flag s).events →
      name = if b = .ve2 then variant_library m mode else libname m) ∧
    (env.config_returns → core_loads b env s → ini_check env m = .value true →
      loader_flag m (if b = .ve2 then variant_library m mode else libname m) (s.plugin m)
        = false →
      Event.load_request (if b = .ve2 then variant_library m mode else libname m)
        ∈ (update_device b env handle flag s).events ∧
      ∀ hd, env.load_library (if b = .ve2 then variant_library m mode else libname m)
          = .value hd →
        Event.dlsym hd (update_symbol m) ∈ (update_device b env handle flag s).events ∧
        Event.dlsym hd (end_symbol m) ∈ (update_device b env handle flag s).events) := by
  have hsel := selected_library_variant b env m mode hm hmode
  refine ⟨?_, ?_⟩
  · intro name hc hreq
    rcases update_device_cases b env handle flag s m with ⟨e1, _⟩ | ⟨_, e1, _⟩
    · exact absurd hc ((List.filter_eq_nil_iff.mp e1) _ hreq)
    · have hin : Event.load_request name
          ∈ (update_one b env handle flag m (s.plugin m)).events := by
        rw [← e1]
        exact List.mem_filter.mpr ⟨hreq, hc⟩
      obtain ⟨_, hl⟩ := update_one_request_inv b env handle flag m _ name hin
      obtain ⟨hs1, _⟩ := load_function_request_inv b env m _ name hl
      rw [hsel] at hs1
      exact (Option.some.inj hs1).symm
  · intro hcfg hcore hen hflag
    have hmo : m ∈ update_order b := by
      rcases hm with hm | hm <;> subst hm <;> cases b <;> simp [update_order]
    obtain ⟨_, hall⟩ := update_device_reached b env handle flag s hcfg hcore
    have hsub : ∀ e ∈ (load_function b env m (s.plugin m)).events,
        e ∈ (update_device b env handle flag s).events := by
      intro e he
      have : e ∈ (update_device b env handle flag s).events.filter (Event.concerns m) := by
        rw [(hall m hmo).1]
        exact update_one_load_events b env handle flag m _ hen e he
      exact (List.mem_filter.mp this).1
    refine ⟨hsub _ (load_function_request b env m _ _ hsel hflag), ?_⟩
    intro hd hl
    have hsym := load_function_symbols b env m (s.plugin m) _ hd hsel hflag hl
    have hslots : Slot.update ∈ registered_slots b m ∧ Slot.flush ∈ registered_slots b m := by
      rcases hm with hm | hm <;> subst hm <;> cases b <;> simp [registered_slots]
    exact ⟨hsub _ (hsym _ hslots.1), hsub _ (hsym _ hslots.2)⟩

/-- Witness of C7, amended: AIE profile on VE2 with mode "xdna". -/
theorem variant_selection_witness :
    (Sample.profile_in_mode "xdna").get_xdp_mode = .value "xdna" ∧
    ∀ name, (Event.load_request name).concerns .aie_profile = true →
      Event.load_request name
        ∈ (update_device .ve2 (Sample.profile_in_mode "xdna") 5 true State.initial).events →
      name = if Build.ve2 = .ve2 then variant_library .aie_profile "xdna" else libname .aie_profile :=
  ⟨rfl, (variant_selection .ve2 (Sample.profile_in_mode "xdna") 5 true State.initial
    .aie_profile "xdna" (Or.inl rfl) rfl).1⟩

/-- C9, counterexample: `finish_flush_device` has no handler. In the generic build with
AIE trace and AIE profile enabled and bound, the end callback of AIE trace throws: the
exception leaves `finish_flush_device`, nothing is logged, and the end callback of AIE
profile (callable 4), which comes next, is not called. -/
theorem finalize_does_not_absorb :
    ((update_device .generic Sample.trace_flush_throws 5 true State.initial).state.plugin
        .aie_profile).end_cb = some 4 ∧
    ini_check Sample.trace_flush_throws .aie_profile = .value true ∧
    (finish_flush_device .generic Sample.trace_flush_throws 5
      (update_device .generic Sample.trace_flush_throws 5 true State.initial).state).raised
      = some "flush failed" ∧
    (finish_flush_device .generic Sample.trace_flush_throws 5
      (update_device .generic Sample.trace_flush_throws 5 true State.initial).state).events
      = [Event.callback .aie_trace .flush 2 5 none] := by
  decide

/-- C9, amended: an exception of a flush callback leaves `finish_flush_device`. If the
plugins before `m` in the flush order are passed without an exception, `m` is enabled,
its end/flush slot is bound and the callback throws, then the exception propagates out
of the call, no global is changed, and the events of the call are the flush calls owed
to the plugins before `m` followed by the call of the throwing callback: nothing is
logged and no plugin after `m` is flushed. -/
theorem finalize_propagates_flush_exception (b : Build) (env : Env) (handle : Nat) (s : State)
    (m : Module) (pre post : List Module) (fn : Nat) (w : String)
    (hord : flush_order b = pre ++ m :: post)
    (hpre : ∀ m' ∈ pre, (flush_one env handle m' (s.plugin m')).raised = none)
    (hen : ini_check env m = .value true)
    (hcb : (s.plugin m).end_cb = some fn)
    (hthrow : env.invoke fn handle none = some w) :
    (finish_flush_device b env handle s).raised = some w ∧
    (finish_flush_device b env handle s).state = s ∧
    (finish_flush_device b env handle s).events
      = (pre.flatMap fun m' => expected_flush env handle m' (s.plugin m')) ++
        [Event.callback m .flush fn handle none] ∧
    (∀ e ∈ (finish_flush_device b env handle s).events, e.is_message = false) ∧
    (∀ m' ∈ post, ∀ e ∈ (finish_flush_device b env handle s).events,
      e.concerns m' = false) := by
  have hnd : (pre ++ m :: post).Nodup := hord ▸ flush_order_nodup b
  have hm : (flush_one env handle m (s.plugin m)).raised = some w := by
    simp [flush_one, plugin_finish_flush_device, hen, hcb, call_cb, hthrow]
  have hev : (flush_one env handle m (s.plugin m)).events
      = [Event.callback m .flush fn handle none] := by
    simp [flush_one, plugin_finish_flush_device, hen, hcb, call_cb]
  obtain ⟨h1, h2⟩ := run_all_raised_at (flush_one env handle) m post w pre hnd s hpre hm
  have hevents : (finish_flush_device b env handle s).events
      = (pre.flatMap fun m' => expected_flush env handle m' (s.plugin m')) ++
        [Event.callback m .flush fn handle none] := by
    simp only [finish_flush_device, hord, h2, hev, flush_one_events]
  have hkind : ∀ e ∈ (finish_flush_device b env handle s).events,
      ∃ m' ∈ pre ++ [m], ∃ fn', e = Event.callback m' .flush fn' handle none := by
    intro e he
    rw [hevents, List.mem_append, List.mem_flatMap] at he
    rcases he with ⟨m', hm', he⟩ | he
    · obtain ⟨fn', hfn⟩ := expected_flush_mem env handle m' _ e he
      exact ⟨m', List.mem_append_left _ hm', fn', hfn⟩
    · exact ⟨m, by simp, fn, by simpa using he⟩
  refine ⟨by simp only [finish_flush_device, hord]; exact h1,
    run_all_state_eq _ (flush_one_state env handle) _ s, hevents, ?_, ?_⟩
  · intro e he
    obtain ⟨m', _, fn', hfn⟩ := hkind e he
    rw [hfn]; rfl
  · intro m' hm' e he
    obtain ⟨x, hx, fn', hfn⟩ := hkind e he
    have hne : x ≠ m' := by
      intro hxm
      subst hxm
      have h3 := List.nodup_append.mp hnd
      rcases List.mem_append.mp hx with hxp | hxm
      · exact h3.2.2 hxp (List.mem_cons_of_mem _ hm')
      · rw [List.mem_singleton] at hxm
        subst hxm
        exact (List.nodup_cons.mp h3.2.1).1 hm'
    rw [hfn]
    simp [Event.concerns, hne]

/-- Witness of C9, amended: the end callback of AIE trace throws in the generic build,
where PL deadlock detection comes before it and AIE profile after it. -/
theorem finalize_propagates_flush_exception_witness :
    flush_order .generic = [.pl_deadlock] ++ .aie_trace :: [.aie_profile] ∧
    Sample.trace_flush_throws.invoke 2 5 none = some "flush failed" ∧
    (finish_flush_device .generic Sample.trace_flush_throws 5
      (update_device .generic Sample.trace_flush_throws 5 true State.initial).state).raised
      = some "flush failed" :=
  ⟨rfl, rfl,
    (finalize_propagates_flush_exception .generic Sample.trace_flush_throws 5
      (update_device .generic Sample.trace_flush_throws 5 true State.initial).state
      .aie_trace [.pl_deadlock] [.aie_profile] 2 "flush failed" rfl
      (by intro m' hm'; rw [List.mem_singleton] at hm'; subst hm'; decide)
      (by decide) (by decide) rfl).1⟩

/-- C5, counterexample: with a throwing getter the other plugins are not processed as
if the plugin were absent. On the Windows client build ML timeline is enabled, its
library loads and exports no symbol, so its update slot is empty; AIE halt is enabled
and the getter of AIE profile throws. With ML timeline enabled the condition guarding
`load_core` stops at its getter, and AIE halt is loaded and called before the getter of
AIE profile throws. With ML timeline disabled the condition goes on to the getter of AIE
profile, which throws before any plugin is processed. -/
theorem absent_plugin_changes_others :
    ini_check Sample.profile_getter_throws .ml_timeline = .value true ∧
    (load_function (.client true) Sample.profile_getter_throws .ml_timeline
      (State.initial.plugin .ml_timeline)).raised = none ∧
    (load_function (.client true) Sample.profile_getter_throws .ml_timeline
      (State.initial.plugin .ml_timeline)).state.update_device_cb = none ∧
    (update_device (.client true) Sample.profile_getter_throws 5 true State.initial).events.filter
        (Event.concerns .aie_halt)
      = [Event.load_request "xdp_aie_halt_plugin", Event.dlsym 9 "updateDeviceAIEHalt",
         Event.dlsym 9 "finishFlushDeviceAIEHalt",
         Event.callback .aie_halt .update 5 5 none] ∧
    (update_device (.client true) (Sample.profile_getter_throws.disable .ml_timeline) 5 true
      State.initial).events = [] := by
  decide

/-- C5, amended: an enabled plugin whose update slot is empty after its load function
has run without throwing. `update_device` calls no callback of the plugin and sends no
failure message for it; and when no configuration getter throws, the call returns
normally and for every other plugin the events that concern it and the globals it is
left with are the same as in the call where the plugin is disabled. -/
theorem absent_update_slot_is_noop (b : Build) (env : Env) (handle : Nat) (flag : Bool)
    (s : State) (m : Module)
    (hen : ini_check env m = .value true)
    (hload : (load_function b env m (s.plugin m)).raised = none)
    (habs : (load_function b env m (s.plugin m)).state.update_device_cb = none) :
    (∀ k fn hd fl, Event.callback m k fn hd fl ∉ (update_device b env handle flag s).events) ∧
    (∀ w, Event.message (load_fail_msg m) w ∉ (update_device b env handle flag s).events ∧
      Event.message (update_fail_msg m) w ∉ (update_device b env handle flag s).events) ∧
    (env.config_returns →
      (update_device b env handle flag s).raised = none ∧
      ∀ m', m' ≠ m →
        (update_device b env handle flag s).events.filter (Event.concerns m')
          = (update_device b (env.disable m) handle flag s).events.filter (Event.concerns m') ∧
        (update_device b env handle flag s).state.plugin m'
          = (update_device b (env.disable m) handle flag s).state.plugin m') := by
  have hone : (update_one b env handle flag m (s.plugin m)).events
      = (load_function b env m (s.plugin m)).events := by
    rw [(update_one_enabled b env handle flag m _ hen).1]
    simp [try_catch, hload, plugin_update_device, habs, Outcome.ret]
  have hsub : ∀ e ∈ (update_device b env handle flag s).events, e.concerns m = true →
      e ∈ (load_function b env m (s.plugin m)).events := by
    intro e he hc
    rcases update_device_cases b env handle flag s m with ⟨e1, _⟩ | ⟨_, e1, _⟩
    · exact absurd hc ((List.filter_eq_nil_iff.mp e1) _ he)
    · rw [← hone, ← e1]
      exact List.mem_filter.mpr ⟨he, hc⟩
  obtain ⟨n1, n2, n3, n4⟩ := mode_msg_ne_fail m
  refine ⟨?_, ?_, fun hcfg => ⟨update_device_returns b env handle flag s hcfg,
    fun m' hne => update_device_disable b env handle flag s m m' hcfg hne⟩⟩
  · intro k fn hd fl hmem
    rcases load_function_events_kind b env m _ _
      (hsub _ hmem (by simp [Event.concerns])) with h | h | h
    · simp [Event.is_load] at h
    · cases h
    · cases h
  · intro w
    refine ⟨?_, ?_⟩
    · intro hmem
      rcases load_function_events_kind b env m _ _
        (hsub _ hmem (concerns_load_fail m w)) with h | h | h
      · simp [Event.is_load] at h
      · injection h with h1 _; exact n1 h1.symm
      · injection h with h1 _; exact n3 h1.symm
    · intro hmem
      rcases load_function_events_kind b env m _ _
        (hsub _ hmem (concerns_update_fail m w)) with h | h | h
      · simp [Event.is_load] at h
      · injection h with h1 _; exact n2 h1.symm
      · injection h with h1 _; exact n4 h1.symm

/-- Witness of C5, amended: the AIE trace library loads but exports neither symbol. -/
theorem absent_update_slot_is_noop_witness :
    Sample.trace_symbols_missing.config_returns ∧
    ini_check Sample.trace_symbols_missing .aie_trace = .value true ∧
    (load_function .generic Sample.trace_symbols_missing .aie_trace
      (State.initial.plugin .aie_trace)).raised = none ∧
    (load_function .generic Sample.trace_symbols_missing .aie_trace
      (State.initial.plugin .aie_trace)).state.update_device_cb = none ∧
    (update_device .generic Sample.trace_symbols_missing 5 true State.initial).raised = none :=
  have hcfg : Sample.trace_symbols_missing.config_returns := by
    intro m w; simp [Sample.trace_symbols_missing, Sample.trace_missing]
  ⟨hcfg, by decide, by decide, by decide,
    ((absent_update_slot_is_noop .generic Sample.trace_symbols_missing 5 true State.initial
      .aie_trace (by decide) (by decide) (by decide)).2.2 hcfg).1⟩

/-- C10: the AIE trace scenario, on every build. From the initial state, with only AIE
trace enabled, a mode string other than "xdna", a loader that succeeds and both symbols
exported, `update_device(H, true)` returns normally; its load requests and symbol
resolutions are, after the request for the XDP core library on the Windows client
build, one request for "xdp_aie_trace_plugin" and one resolution of each of
"finishFlushAIEDevice" and "updateAIEDevice"; its only callback call is the update
callable with `(H, true)`. A following `finish_flush_device(H)` produces exactly one
event, the call of the flush callable with `(H)`. -/
theorem trace_only_scenario (b : Build) (env1 env2 : Env) (H lh u f : Nat) (mode : String)
    (hon1 : env1.config .aie_trace = .value true)
    (hoff1 : ∀ m, m ≠ .aie_trace → env1.config m = .value false)
    (hon2 : env2.config .aie_trace = .value true)
    (hoff2 : ∀ m, m ≠ .aie_trace → env2.config m = .value false)
    (hmode : env1.get_xdp_mode = .value mode) (hx : mode ≠ "xdna")
    (hcore : ∀ w, env1.load_library "xdp_core" ≠ .raise w)
    (hlib : env1.load_library "xdp_aie_trace_plugin" = .value lh)
    (hu : env1.dlsym lh "updateAIEDevice" = some u)
    (hf : env1.dlsym lh "finishFlushAIEDevice" = some f) :
    (update_device b env1 H true State.initial).raised = none ∧
    (update_device b env1 H true State.initial).events.filter Event.is_load
      = (if b = .client true then [Event.load_request "xdp_core"] else []) ++
        [Event.load_request "xdp_aie_trace_plugin", Event.dlsym lh "finishFlushAIEDevice",
         Event.dlsym lh "updateAIEDevice"] ∧
    (update_device b env1 H true State.initial).events.filter Event.is_callback
      = [Event.callback .aie_trace .update u H (some true)] ∧
    (finish_flush_device b env2 H (update_device b env1 H true State.initial).state).events
      = [Event.callback .aie_trace .flush f H none] := by
  have a1 := hoff1 .ml_timeline (by decide)
  have a2 := hoff1 .aie_halt (by decide)
  have a3 := hoff1 .aie_profile (by decide)
  have a4 := hoff1 .aie_debug (by decide)
  have a5 := hoff1 .aie_pc (by decide)
  have a6 := hoff1 .aie_status (by decide)
  have a7 := hoff1 .pl_deadlock (by decide)
  have b1 := hoff2 .ml_timeline (by decide)
  have b2 := hoff2 .aie_halt (by decide)
  have b3 := hoff2 .aie_profile (by decide)
  have b4 := hoff2 .aie_debug (by decide)
  have b5 := hoff2 .aie_pc (by decide)
  have b6 := hoff2 .aie_status (by decide)
  have b7 := hoff2 .pl_deadlock (by decide)
  have hcfg : env1.config_returns := by
    intro m w
    by_cases hm : m = .aie_trace
    · rw [hm, hon1]; simp
    · rw [hoff1 m hm]; simp
  have hc : ∃ ch, env1.load_library "xdp_core" = .value ch := by
    cases h : env1.load_library "xdp_core" with
    | value ch => exact ⟨ch, rfl⟩
    | raise w => exact absurd h (hcore w)
  obtain ⟨ch, hch⟩ := hc
  have hcl : (core.load_core env1 State.initial) =
      ⟨{ State.initial with core_loader := true }, [Event.load_request "xdp_core"], none⟩ := by
    simp [core.load_core, static_local, module_loader, register_callbacks_empty, hch,
      State.initial, Outcome.ret]
  have hcore' : core_loads b env1 State.initial := by
    intro _ _; rw [hcl]
  have hany : any_config env1 core_dependents = .value true := by
    simp [any_config, core_dependents, hon1, a1, a3]
  have hoff : ∀ x, x ≠ .aie_trace → ∀ p, update_one b env1 H true x p = Outcome.ret p := by
    intro x hx' p
    apply update_one_disabled
    cases x <;> simp [ini_check, a1, a2, a3, a4, a5, a6, a7] at hx' ⊢
  have htrace : (update_one b env1 H true .aie_trace Plugin.initial).events.filter Event.is_load
        = [Event.load_request "xdp_aie_trace_plugin", Event.dlsym lh "finishFlushAIEDevice",
           Event.dlsym lh "updateAIEDevice"] ∧
      (update_one b env1 H true .aie_trace Plugin.initial).events.filter Event.is_callback
        = [Event.callback .aie_trace .update u H (some true)] ∧
      (update_one b env1 H true .aie_trace Plugin.initial).state.end_cb = some f := by
    cases hinv : env1.invoke u H (some true) <;> rcases b with (_ | _) | _ | _ <;>
      simp [update_one, load_once_and_update, ini_check, hon1, Outcome.andThen,
        Outcome.ret, load_function, load, load_by_mode, static_local, module_loader,
        register_callbacks, registered_slots, register_slots, assign_slot,
        Plugin.initial, hlib, hu, hf, hmode, hx, try_catch, plugin_update_device,
        call_cb, takes_flag, symbol, update_symbol, end_symbol,
        libname, send, Event.is_load, Event.is_callback, hinv]
  obtain ⟨t1, t2, t3⟩ := htrace
  obtain ⟨hret, hall⟩ := update_device_reached b env1 H true State.initial hcfg hcore'
  have hev := update_device_events_exact b env1 H true State.initial hcfg hcore'
  have hinit : ∀ x, State.initial.plugin x = Plugin.initial := fun _ => rfl
  have hmem : Module.aie_trace ∈ update_order b := by
    cases b <;> simp [update_order]
  have hend : ((update_device b env1 H true State.initial).state.plugin .aie_trace).end_cb
      = some f := by
    rw [(hall _ hmem).2, hinit]; exact t3
  have hfin : ∀ s' : State, (s'.plugin .aie_trace).end_cb = some f →
      (finish_flush_device b env2 H s').events = [Event.callback .aie_trace .flush f H none] := by
    intro s' hs'
    cases hinv2 : env2.invoke f H none <;> rcases b with (_ | _) | _ | _ <;>
      simp [finish_flush_device, flush_order, run_all, on_plugin, flush_one, ini_check, hon2,
        b1, b2, b3, b4, b5, b6, b7, Outcome.andThen, Outcome.ret, plugin_finish_flush_device,
        call_cb, hs', hinv2]
  refine ⟨hret, ?_, ?_, hfin _ hend⟩
  · rw [hev, List.filter_append]
    rcases b with (_ | _) | _ | _ <;>
      simp [update_order, List.flatMap_cons, hoff, hinit, t1, Outcome.ret, List.filter_append,
        hany, hcl, Event.is_load]
  · rw [hev, List.filter_append]
    rcases b with (_ | _) | _ | _ <;>
      simp [update_order, List.flatMap_cons, hoff, hinit, t2, Outcome.ret, List.filter_append,
        hany, hcl, Event.is_callback]

/-- Witness of C10: the sample environment on the VE2 build. -/
theorem trace_only_scenario_witness :
    Sample.trace_only.config .aie_trace = .value true ∧
    (∀ m, m ≠ .aie_trace → Sample.trace_only.config m = .value false) ∧
    (finish_flush_device .ve2 Sample.trace_only 5
      (update_device .ve2 Sample.trace_only 5 true State.initial).state).events
      = [Event.callback .aie_trace .flush 2 5 none] :=
  have hoff : ∀ m, m ≠ .aie_trace → Sample.trace_only.config m = .value false := by
    intro m hm; cases m <;> first | rfl | exact absurd rfl hm
  ⟨rfl, hoff,
    (trace_only_scenario .ve2 Sample.trace_only Sample.trace_only 5 7 1 2 "zocl"
      rfl hoff rfl hoff rfl (by decide) (by intro w h; cases h) rfl rfl rfl).2.2.2⟩

end xrt_core.xdp
